import Mathlib

/-!
HTTP header framing (nhttp_inspect): embedding of `nhttp_msg_header.cc`, followed by the
packet dispatcher of `stream_base.cc`.

The header section of an HTTP message decides what the inspector expects next on
its direction of the flow (`update_flow`), whether the section goes to detection
alone, together with its body, or not at all (`worth_detection`), and which
events the section raises (`gen_events`).

Integers are mathematical (`Int`): the widths of the members are declared in
headers outside the source files, and sums and comparisons are taken on the values.
-/

namespace NHttp

/-! ## Enumerations (`NHttpEnums`) -/

/-- Direction of a section; indexes the two-element arrays of the flow data. -/
inductive SourceId where
  | SRC_CLIENT
  | SRC_SERVER
  deriving DecidableEq, Repr

/-- Kind of section expected next on one direction. -/
inductive SectionType where
  | SEC_DISCARD
  | SEC_ABORT
  | SEC__NOTCOMPUTE
  | SEC__NOTPRESENT
  | SEC_REQUEST
  | SEC_STATUS
  | SEC_HEADER
  | SEC_BODY
  | SEC_CHUNK
  | SEC_TRAILER
  | SEC_CLOSED
  deriving DecidableEq, Repr

/-- Request methods; only `METH_HEAD` is singled out by the code. -/
inductive MethodId where
  | METH__OTHER
  | METH_OPTIONS
  | METH_GET
  | METH_HEAD
  | METH_POST
  | METH_PUT
  | METH_DELETE
  | METH_TRACE
  | METH_CONNECT
  deriving DecidableEq, Repr

/-- Header kinds; the code reads `HEAD_TRANSFER_ENCODING` and `HEAD_CONTENT_LENGTH`. -/
inductive HeaderId where
  | HEAD__OTHER
  | HEAD_TRANSFER_ENCODING
  | HEAD_CONTENT_LENGTH
  deriving DecidableEq, Repr

/-- Result of `worth_detection`. -/
inductive ProcessResult where
  | RES_IGNORE
  | RES_INSPECT
  | RES_AGGREGATE
  deriving DecidableEq, Repr

/-- Event kinds; every kind other than `EVENT_MULTIPLE_CONTLEN` is kept by its number. -/
inductive EventSid where
  | EVENT_MULTIPLE_CONTLEN
  | EVENT__OTHER (sid : Nat)
  deriving DecidableEq, Repr

/-! ## Data model -/

/-- A two-element array indexed by `SourceId` (`x[2]` in the flow data). -/
structure Arr2 (α : Type) where
  client : α
  server : α
  deriving DecidableEq, Repr

/-- Array read `a[i]`. -/
def Arr2.get {α : Type} (a : Arr2 α) : SourceId → α
  | SourceId.SRC_CLIENT => a.client
  | SourceId.SRC_SERVER => a.server

/-- Array write `a[i] = v`. -/
def Arr2.set {α : Type} (a : Arr2 α) (i : SourceId) (v : α) : Arr2 α :=
  match i with
  | SourceId.SRC_CLIENT => { a with client := v }
  | SourceId.SRC_SERVER => { a with server := v }

/-- A `Field`: `length` is the number of octets, or a non-positive status marker when
the field is absent or could not be normalized; `start` is the buffer it points to, kept
as the 64-bit integers stored at octet offsets 0, 8, 16, ... (the only way `update_flow`
reads a buffer). -/
structure Field where
  length : Int
  start : List Int
  deriving DecidableEq, Repr

/-- The read `*(int64_t*)(start + off)`: the integer stored at octet offset `off`, and
`none` when the offset is negative, not a multiple of 8, or past the buffer (the read
is then outside the field and has no defined value). -/
def read_int64 (start : List Int) (off : Int) : Option Int :=
  if 0 ≤ off ∧ off % 8 = 0 then start[(off / 8).toNat]? else none

/-- Constants of `nhttp_enum.h`, which is not among the source files. -/
structure Constants where
  TRANSCODE_CHUNKED : Int
  DATABLOCKSIZE : Int
  MAXOCTETS : Int
  deriving DecidableEq, Repr

/-- The members of `NHttpFlowData` used by the header section, one entry per direction,
and the record of the `half_reset` calls made on it, oldest first. -/
structure NHttpFlowData where
  type_expected : Arr2 SectionType
  data_length : Arr2 Int
  body_octets : Arr2 Int
  unused_octets_visible : Arr2 Int
  section_buffer_length : Arr2 Int
  half_reset_calls : List SourceId
  deriving DecidableEq, Repr

/-- The members of `NHttpMsgHeader` read by the code. `request` is
`transaction->get_request()`: `none` for `nullptr`, otherwise the request's
`get_method_id()`. `header_value_norm` gives what `get_header_value_norm` returns. -/
structure NHttpMsgHeader where
  tcp_close : Bool
  infractions : Nat
  source_id : SourceId
  status_code_num : Int
  request : Option MethodId
  header_value_norm : HeaderId → Field
  header_count : HeaderId → Int
  msg_text : Field

/-- The accessor `get_header_value_norm(id)`. -/
def NHttpMsgHeader.get_header_value_norm (m : NHttpMsgHeader) (id : HeaderId) : Field :=
  m.header_value_norm id

/-! ## `update_flow` -/

/-- Modelled from the spec: `NHttpFlowData::half_reset` is not among the source files.
"Reset means: zero the body counters for this direction and signal the session store to
discard any leftover partial-section bookkeeping for that direction (the external
session store owns the actual buffer)." The signal is the entry added to
`half_reset_calls`. -/
def half_reset (s : NHttpFlowData) (source_id : SourceId) : NHttpFlowData :=
  { s with
    data_length := s.data_length.set source_id 0
    body_octets := s.body_octets.set source_id 0
    half_reset_calls := s.half_reset_calls ++ [source_id] }

/-- The local constant `disaster_mask` of `update_flow`. -/
def disaster_mask : Nat := 0

/-- Guard of the chunked branch: `length > 0 && *(int64_t*)(start + (length - 8)) ==
TRANSCODE_CHUNKED`. The read happens only when the length is positive. -/
def transfer_encoding_chunked (c : Constants) (m : NHttpMsgHeader) : Option Bool :=
  if (m.get_header_value_norm HeaderId.HEAD_TRANSFER_ENCODING).length > 0 then
    (read_int64 (m.get_header_value_norm HeaderId.HEAD_TRANSFER_ENCODING).start
      ((m.get_header_value_norm HeaderId.HEAD_TRANSFER_ENCODING).length - 8)).map
        (fun v => decide (v = c.TRANSCODE_CHUNKED))
  else some false

/-- Guard of the regular-body branch: `length > 0 && *(int64_t*)start > 0`. The read
happens only when the length is positive. -/
def content_length_positive (m : NHttpMsgHeader) : Option Bool :=
  if (m.get_header_value_norm HeaderId.HEAD_CONTENT_LENGTH).length > 0 then
    (read_int64 (m.header_value_norm HeaderId.HEAD_CONTENT_LENGTH).start 0).map
      (fun v => decide (v > 0))
  else some false

/-- The method `NHttpMsgHeader::update_flow`, as a function of the flow data. The result
is `none` when a guard reads outside its field. -/
def update_flow (c : Constants) (m : NHttpMsgHeader) (s : NHttpFlowData) :
    Option NHttpFlowData :=
  if m.tcp_close then
    some (half_reset
      { s with type_expected := s.type_expected.set m.source_id SectionType.SEC_CLOSED }
      m.source_id)
  else if m.infractions &&& disaster_mask ≠ 0 then
    some (half_reset
      { s with type_expected := s.type_expected.set m.source_id SectionType.SEC_ABORT }
      m.source_id)
  else if m.source_id = SourceId.SRC_SERVER ∧
      (m.status_code_num ≤ 199 ∨ m.status_code_num = 204 ∨ m.status_code_num = 304) then
    some (half_reset
      { s with
        type_expected := s.type_expected.set SourceId.SRC_SERVER SectionType.SEC_STATUS }
      SourceId.SRC_SERVER)
  else if m.source_id = SourceId.SRC_SERVER ∧ m.request = some MethodId.METH_HEAD then
    some (half_reset
      { s with
        type_expected := s.type_expected.set SourceId.SRC_SERVER SectionType.SEC_STATUS }
      SourceId.SRC_SERVER)
  else
    match transfer_encoding_chunked c m with
    | none => none
    | some true =>
      some { s with
        type_expected := s.type_expected.set m.source_id SectionType.SEC_CHUNK
        body_octets := s.body_octets.set m.source_id 0 }
    | some false =>
      match content_length_positive m with
      | none => none
      | some true =>
        (read_int64 (m.get_header_value_norm HeaderId.HEAD_CONTENT_LENGTH).start 0).map
          (fun len =>
            { s with
              type_expected := s.type_expected.set m.source_id SectionType.SEC_BODY
              data_length := s.data_length.set m.source_id len
              body_octets := s.body_octets.set m.source_id 0 })
      | some false =>
        some (half_reset
          { s with
            type_expected := s.type_expected.set m.source_id
              (if m.source_id = SourceId.SRC_CLIENT then SectionType.SEC_REQUEST
               else SectionType.SEC_STATUS) }
          m.source_id)

/-! ## `worth_detection` -/

/-- The method `NHttpMsgHeader::worth_detection`. -/
def worth_detection (c : Constants) (m : NHttpMsgHeader) (s : NHttpFlowData) :
    ProcessResult :=
  if s.type_expected.get m.source_id = SectionType.SEC_BODY ∧
      s.data_length.get m.source_id ≤ s.unused_octets_visible.get m.source_id ∧
      s.data_length.get m.source_id ≤ c.DATABLOCKSIZE ∧
      s.section_buffer_length.get m.source_id + m.msg_text.length
        + s.data_length.get m.source_id ≤ c.MAXOCTETS then
    ProcessResult.RES_AGGREGATE
  else if m.msg_text.length > 0 ∨ s.section_buffer_length.get m.source_id > 0 then
    ProcessResult.RES_INSPECT
  else ProcessResult.RES_IGNORE

/-! ## `gen_events` -/

/-- What a section's methods can reach: the flow data and the events raised so far,
oldest first. -/
structure Inspection where
  session_data : NHttpFlowData
  events : List EventSid
  deriving DecidableEq, Repr

/-- Modelled from the spec: `create_event` is not among the source files; it "raises" an
event, recorded here at the end of the event list. -/
def create_event (w : Inspection) (sid : EventSid) : Inspection :=
  { w with events := w.events ++ [sid] }

/-- The method `NHttpMsgHeader::gen_events`. `shared_gen_events` is
`NHttpMsgHeadShared::gen_events`, which is not among the source files. -/
def gen_events (shared_gen_events : NHttpMsgHeader → Inspection → Inspection)
    (m : NHttpMsgHeader) (w : Inspection) : Inspection :=
  let w1 := shared_gen_events m w
  if m.header_count HeaderId.HEAD_CONTENT_LENGTH > 1 then
    create_event w1 EventSid.EVENT_MULTIPLE_CONTLEN
  else w1

/-! ## Sample inputs -/

/-- Block cap 1024, section cap 4096, chunked coded as 2. -/
def sample_constants : Constants :=
  { TRANSCODE_CHUNKED := 2, DATABLOCKSIZE := 1024, MAXOCTETS := 4096 }

/-- Marker for an absent field. -/
def field_absent : Field := { length := -11, start := [] }

/-- A normalized Content-Length holding `v`. -/
def field_int64 (v : Int) : Field := { length := 8, start := [v] }

/-- Header values of a section given its Transfer-Encoding and Content-Length. -/
def sample_values (te cl : Field) : HeaderId → Field
  | HeaderId.HEAD_TRANSFER_ENCODING => te
  | HeaderId.HEAD_CONTENT_LENGTH => cl
  | HeaderId.HEAD__OTHER => field_absent

/-- Occurrence counts with `n` Content-Length headers. -/
def sample_counts (n : Int) : HeaderId → Int
  | HeaderId.HEAD_CONTENT_LENGTH => n
  | _ => 0

/-- A section with 200 octets of header text. -/
def sample_msg (close : Bool) (src : SourceId) (status : Int) (req : Option MethodId)
    (te cl : Field) : NHttpMsgHeader :=
  { tcp_close := close, infractions := 5, source_id := src, status_code_num := status,
    request := req, header_value_norm := sample_values te cl,
    header_count := sample_counts 1, msg_text := { length := 200, start := [] } }

/-- Flow data while a header is processed on both directions, with the body counters as
an earlier message left them. -/
def sample_flow : NHttpFlowData :=
  { type_expected := { client := SectionType.SEC_HEADER, server := SectionType.SEC_HEADER },
    data_length := { client := 77, server := 88 },
    body_octets := { client := 33, server := 44 },
    unused_octets_visible := { client := 50, server := 50 },
    section_buffer_length := { client := 0, server := 0 },
    half_reset_calls := [] }

/-- Flow data after a header that announced a 50-octet body on both directions, with
`visible` octets already visible and nothing buffered. -/
def sample_body_flow (visible : Int) : NHttpFlowData :=
  { type_expected := { client := SectionType.SEC_BODY, server := SectionType.SEC_BODY },
    data_length := { client := 50, server := 50 },
    body_octets := { client := 0, server := 0 },
    unused_octets_visible := { client := visible, server := visible },
    section_buffer_length := { client := 0, server := 0 },
    half_reset_calls := [] }

/-- A client section with empty header text. -/
def sample_empty_msg : NHttpMsgHeader :=
  { tcp_close := false, infractions := 0, source_id := SourceId.SRC_CLIENT,
    status_code_num := -11, request := none,
    header_value_norm := sample_values field_absent field_absent,
    header_count := sample_counts 0, msg_text := { length := 0, start := [] } }

/-- Flow data expecting a new request from the client, nothing buffered. -/
def sample_request_flow : NHttpFlowData :=
  { type_expected := { client := SectionType.SEC_REQUEST, server := SectionType.SEC_STATUS },
    data_length := { client := -11, server := -11 },
    body_octets := { client := 0, server := 0 },
    unused_octets_visible := { client := 0, server := 0 },
    section_buffer_length := { client := 0, server := 0 },
    half_reset_calls := [] }

/-- Modelled from the spec: `NHttpMsgHeadShared::gen_events` is not among the source
files. The anomaly emitter of the spec raises one kind of event, for a repeated length
field ("today scoped to the content-length field"), and that one is raised by the header
section itself; the shared step is taken to raise none. -/
def shared_gen_events_none (_m : NHttpMsgHeader) (w : Inspection) : Inspection := w

/-- A server response 200 to GET carrying "Transfer-Encoding: gzip" and one
"Content-Length: 0". -/
def sample_degraded_msg : NHttpMsgHeader :=
  sample_msg false SourceId.SRC_SERVER 200 (some MethodId.METH_GET)
    (field_int64 5) (field_int64 0)

/-- A section like `m` in all that `update_flow` reads, with three Content-Length
headers, one octet of header text and another value under the remaining header kinds. -/
def sample_variant (m : NHttpMsgHeader) : NHttpMsgHeader :=
  { m with
    header_value_norm := sample_values
      (m.header_value_norm HeaderId.HEAD_TRANSFER_ENCODING)
      (m.header_value_norm HeaderId.HEAD_CONTENT_LENGTH)
    header_count := sample_counts 3
    msg_text := { length := 1, start := [] } }

end NHttp

/-! ## Packet dispatcher (`stream_base.cc`) -/

namespace Stream

/-- Flag masks of the packet header file, which is not among the source files. -/
structure PacketConstants where
  PKT_ERR_CKSUM_IP : Nat
  PKT_REBUILT_STREAM : Nat
  deriving DecidableEq, Repr

/-- Protocol number of the system headers. -/
def IPPROTO_IP : Nat := 0

/-- Protocol number of the system headers. -/
def IPPROTO_ICMP : Nat := 1

/-- Protocol number of the system headers. -/
def IPPROTO_TCP : Nat := 6

/-- Protocol number of the system headers. -/
def IPPROTO_UDP : Nat := 17

/-- The members of `Packet` read by the dispatcher. `iph_is_valid` is the value of
`IPH_IS_VALID(p)` and `iph_proto` the value of `GET_IPH_PROTO(p)`; both are defined
outside the source files. -/
structure Packet where
  frag_flag : Nat
  error_flags : Nat
  packet_flags : Nat
  iph_is_valid : Bool
  iph_proto : Nat
  deriving DecidableEq, Repr

/-- The per-thread counters `t_stats`. `PegCount` is declared outside the source files;
counts are natural numbers. -/
structure BaseStats where
  ip : Nat
  icmp : Nat
  tcp : Nat
  udp : Nat
  other : Nat
  deriving DecidableEq, Repr

/-- The methods of `flow_con` that hand a packet to a per-protocol tracker. -/
inductive FlowCall where
  | process_tcp
  | process_udp
  | process_icmp
  | process_ip
  deriving DecidableEq, Repr

/-- What `StreamBase::eval` acts on: the counters of the thread and the record of the
calls made on `flow_con`, oldest first. -/
structure StreamState where
  t_stats : BaseStats
  flow_con_calls : List FlowCall
  deriving DecidableEq, Repr

/-- The function `is_eligible`. -/
def is_eligible (k : PacketConstants) (p : Packet) : Bool :=
  if p.frag_flag ≠ 0 then false
  else if p.error_flags &&& k.PKT_ERR_CKSUM_IP ≠ 0 then false
  else if p.packet_flags &&& k.PKT_REBUILT_STREAM ≠ 0 then false
  else if ¬ (p.iph_is_valid = true) then false
  else true

/-- The method `StreamBase::eval`. -/
def StreamBase.eval (k : PacketConstants) (p : Packet) (st : StreamState) : StreamState :=
  if ¬ (is_eligible k p = true) then st
  else if p.iph_proto = IPPROTO_TCP then
    { t_stats := { st.t_stats with tcp := st.t_stats.tcp + 1 }
      flow_con_calls := st.flow_con_calls ++ [FlowCall.process_tcp] }
  else if p.iph_proto = IPPROTO_UDP then
    { t_stats := { st.t_stats with udp := st.t_stats.udp + 1 }
      flow_con_calls := st.flow_con_calls ++ [FlowCall.process_udp] }
  else if p.iph_proto = IPPROTO_ICMP then
    { t_stats := { st.t_stats with icmp := st.t_stats.icmp + 1 }
      flow_con_calls := st.flow_con_calls ++ [FlowCall.process_icmp] }
  else if p.iph_proto = IPPROTO_IP then
    { t_stats := { st.t_stats with ip := st.t_stats.ip + 1 }
      flow_con_calls := st.flow_con_calls ++ [FlowCall.process_ip] }
  else
    { st with t_stats := { st.t_stats with other := st.t_stats.other + 1 } }

/-- Sum of the five counters. -/
def BaseStats.total (b : BaseStats) : Nat :=
  b.ip + b.icmp + b.tcp + b.udp + b.other

/-- Masks used in the examples. -/
def sample_packet_constants : PacketConstants :=
  { PKT_ERR_CKSUM_IP := 1, PKT_REBUILT_STREAM := 2 }

/-- An eligible packet of protocol `proto`. -/
def sample_packet (proto : Nat) : Packet :=
  { frag_flag := 0, error_flags := 0, packet_flags := 4, iph_is_valid := true,
    iph_proto := proto }

/-- A thread that has seen some packets of every kind. -/
def sample_stream_state : StreamState :=
  { t_stats := { ip := 1, icmp := 2, tcp := 3, udp := 4, other := 5 },
    flow_con_calls := [FlowCall.process_udp] }

end Stream

namespace NHttp

/-! ## Helper lemmas -/

theorem Arr2.get_set_same {α : Type} (a : Arr2 α) (i : SourceId) (v : α) :
    (a.set i v).get i = v := by
  cases i <;> rfl

theorem Arr2.get_set_other {α : Type} (a : Arr2 α) (i j : SourceId) (v : α) (h : j ≠ i) :
    (a.set i v).get j = a.get j := by
  cases i <;> cases j <;> first | rfl | exact absurd rfl h

theorem half_reset_type_expected (s : NHttpFlowData) (i : SourceId) :
    (half_reset s i).type_expected = s.type_expected := rfl

theorem half_reset_calls_eq (s : NHttpFlowData) (i : SourceId) :
    (half_reset s i).half_reset_calls = s.half_reset_calls ++ [i] := rfl

theorem disaster_never (n : Nat) : ¬ (n &&& disaster_mask ≠ 0) := by
  simp [disaster_mask]

/-- With the transport closed, the first branch of `update_flow` is taken. -/
theorem update_flow_closed (c : Constants) (m : NHttpMsgHeader) (s : NHttpFlowData)
    (h : m.tcp_close = true) :
    update_flow c m s = some (half_reset
      { s with type_expected := s.type_expected.set m.source_id SectionType.SEC_CLOSED }
      m.source_id) := by
  simp [update_flow, h]

/-- On a server section caught by the status rule, the third branch is taken. -/
theorem update_flow_status (c : Constants) (m : NHttpMsgHeader) (s : NHttpFlowData)
    (h : m.tcp_close = false) (hs : m.source_id = SourceId.SRC_SERVER)
    (hc : m.status_code_num ≤ 199 ∨ m.status_code_num = 204 ∨ m.status_code_num = 304) :
    update_flow c m s = some (half_reset
      { s with
        type_expected := s.type_expected.set SourceId.SRC_SERVER SectionType.SEC_STATUS }
      SourceId.SRC_SERVER) := by
  simp [update_flow, h, hs, hc, disaster_mask]

/-- On a server section answering HEAD, the third or the fourth branch is taken, with
the same effect. -/
theorem update_flow_head (c : Constants) (m : NHttpMsgHeader) (s : NHttpFlowData)
    (h : m.tcp_close = false) (hs : m.source_id = SourceId.SRC_SERVER)
    (hm : m.request = some MethodId.METH_HEAD) :
    update_flow c m s = some (half_reset
      { s with
        type_expected := s.type_expected.set SourceId.SRC_SERVER SectionType.SEC_STATUS }
      SourceId.SRC_SERVER) := by
  by_cases hc : m.status_code_num ≤ 199 ∨ m.status_code_num = 204 ∨ m.status_code_num = 304
  · exact update_flow_status c m s h hs hc
  · simp [update_flow, h, hs, hc, hm, disaster_mask]

/-- When neither the close rule nor a server no-body rule applies, `update_flow` is
decided by the two header guards. -/
theorem update_flow_headers (c : Constants) (m : NHttpMsgHeader) (s : NHttpFlowData)
    (h : m.tcp_close = false)
    (h3 : ¬ (m.source_id = SourceId.SRC_SERVER ∧
      (m.status_code_num ≤ 199 ∨ m.status_code_num = 204 ∨ m.status_code_num = 304)))
    (h4 : ¬ (m.source_id = SourceId.SRC_SERVER ∧ m.request = some MethodId.METH_HEAD)) :
    update_flow c m s =
      match transfer_encoding_chunked c m with
      | none => none
      | some true =>
        some { s with
          type_expected := s.type_expected.set m.source_id SectionType.SEC_CHUNK
          body_octets := s.body_octets.set m.source_id 0 }
      | some false =>
        match content_length_positive m with
        | none => none
        | some true =>
          (read_int64 (m.get_header_value_norm HeaderId.HEAD_CONTENT_LENGTH).start 0).map
            (fun len =>
              { s with
                type_expected := s.type_expected.set m.source_id SectionType.SEC_BODY
                data_length := s.data_length.set m.source_id len
                body_octets := s.body_octets.set m.source_id 0 })
        | some false =>
          some (half_reset
            { s with
              type_expected := s.type_expected.set m.source_id
                (if m.source_id = SourceId.SRC_CLIENT then SectionType.SEC_REQUEST
                 else SectionType.SEC_STATUS) }
            m.source_id) := by
  unfold update_flow
  rw [if_neg (by simp [h]), if_neg (disaster_never _), if_neg h3, if_neg h4]

/-- Every result of `update_flow` has one of three shapes: a no-body result (the type is
set to `SEC_CLOSED`, `SEC_STATUS` or `SEC_REQUEST`, then `half_reset` is called), a
chunked body, or a regular body of positive length. -/
theorem update_flow_cases (c : Constants) (m : NHttpMsgHeader) (s s1 : NHttpFlowData)
    (h : update_flow c m s = some s1) :
    (∃ t, (t = SectionType.SEC_CLOSED ∨ t = SectionType.SEC_STATUS ∨
          t = SectionType.SEC_REQUEST) ∧
      s1 = half_reset { s with type_expected := s.type_expected.set m.source_id t }
        m.source_id) ∨
    s1 = { s with
        type_expected := s.type_expected.set m.source_id SectionType.SEC_CHUNK
        body_octets := s.body_octets.set m.source_id 0 } ∨
    ∃ L, L > 0 ∧
      read_int64 (m.get_header_value_norm HeaderId.HEAD_CONTENT_LENGTH).start 0 = some L ∧
      s1 = { s with
        type_expected := s.type_expected.set m.source_id SectionType.SEC_BODY
        data_length := s.data_length.set m.source_id L
        body_octets := s.body_octets.set m.source_id 0 } := by
  by_cases hc : m.tcp_close = true
  · rw [update_flow_closed c m s hc] at h
    exact Or.inl ⟨_, Or.inl rfl, (Option.some.inj h).symm⟩
  have hc : m.tcp_close = false := by simpa using hc
  by_cases h3 : m.source_id = SourceId.SRC_SERVER ∧
      (m.status_code_num ≤ 199 ∨ m.status_code_num = 204 ∨ m.status_code_num = 304)
  · rw [update_flow_status c m s hc h3.1 h3.2] at h
    refine Or.inl ⟨_, Or.inr (Or.inl rfl), ?_⟩
    rw [h3.1]
    exact (Option.some.inj h).symm
  by_cases h4 : m.source_id = SourceId.SRC_SERVER ∧ m.request = some MethodId.METH_HEAD
  · rw [update_flow_head c m s hc h4.1 h4.2] at h
    refine Or.inl ⟨_, Or.inr (Or.inl rfl), ?_⟩
    rw [h4.1]
    exact (Option.some.inj h).symm
  rw [update_flow_headers c m s hc h3 h4] at h
  cases hte : transfer_encoding_chunked c m with
  | none => rw [hte] at h; exact absurd h (by simp)
  | some b =>
    cases b with
    | true =>
      rw [hte] at h
      exact Or.inr (Or.inl (Option.some.inj h).symm)
    | false =>
      rw [hte] at h
      cases hcl : content_length_positive m with
      | none => rw [hcl] at h; exact absurd h (by simp)
      | some b2 =>
        cases b2 with
        | true =>
          rw [hcl] at h
          cases hr : read_int64 (m.get_header_value_norm HeaderId.HEAD_CONTENT_LENGTH).start 0 with
          | none => rw [hr] at h; exact absurd h (by simp)
          | some L =>
            rw [hr] at h
            refine Or.inr (Or.inr ⟨L, ?_, rfl, (Option.some.inj h).symm⟩)
            have hr1 : read_int64 (m.header_value_norm HeaderId.HEAD_CONTENT_LENGTH).start 0
                = some L := hr
            unfold content_length_positive at hcl
            split at hcl
            · rw [hr1] at hcl
              simpa using hcl
            · exact absurd hcl (by simp)
        | false =>
          rw [hcl] at h
          refine Or.inl ⟨_, ?_, (Option.some.inj h).symm⟩
          cases m.source_id <;> simp

/-! ## Framing classifier -/

/-- C1: when the transport-close flag of the section is set, whatever its direction,
status code, paired request, header values, infractions and the prior flow data,
`update_flow` sets `type_expected[source_id]` to `SEC_CLOSED` and calls
`half_reset(source_id)`, once. -/
theorem C1_close_takes_priority (c : Constants) (m : NHttpMsgHeader) (s : NHttpFlowData)
    (h : m.tcp_close = true) :
    ∃ s1, update_flow c m s = some s1 ∧
      s1 = half_reset
        { s with type_expected := s.type_expected.set m.source_id SectionType.SEC_CLOSED }
        m.source_id ∧
      s1.type_expected.get m.source_id = SectionType.SEC_CLOSED ∧
      s1.half_reset_calls = s.half_reset_calls ++ [m.source_id] := by
  refine ⟨_, update_flow_closed c m s h, rfl, ?_, rfl⟩
  rw [half_reset_type_expected]
  exact Arr2.get_set_same _ _ _

/-- C1 at a closed server section carrying a chunked Transfer-Encoding and a positive
Content-Length. -/
theorem C1_close_takes_priority_witness :
    (sample_msg true SourceId.SRC_SERVER 200 (some MethodId.METH_GET)
        { length := 16, start := [5, 2] } (field_int64 50)).tcp_close = true ∧
    ∃ s1, update_flow sample_constants
        (sample_msg true SourceId.SRC_SERVER 200 (some MethodId.METH_GET)
          { length := 16, start := [5, 2] } (field_int64 50)) sample_flow = some s1 ∧
      s1 = half_reset
        { sample_flow with
          type_expected :=
            sample_flow.type_expected.set SourceId.SRC_SERVER SectionType.SEC_CLOSED }
        SourceId.SRC_SERVER ∧
      s1.type_expected.get SourceId.SRC_SERVER = SectionType.SEC_CLOSED ∧
      s1.half_reset_calls = sample_flow.half_reset_calls ++ [SourceId.SRC_SERVER] :=
  ⟨rfl, C1_close_takes_priority sample_constants _ sample_flow rfl⟩

/-- C2: on a section that is not transport-closed and is caught by neither server
no-body rule of the code (status rule, HEAD rule), a Transfer-Encoding value of positive
length whose last 64-bit code is `TRANSCODE_CHUNKED` makes `update_flow` set
`type_expected[source_id] = SEC_CHUNK` and `body_octets[source_id] = 0`, whatever the
Content-Length value is: the result is not `SEC_BODY`, `data_length` is left as it was
and `half_reset` is not called. -/
theorem C2_transfer_encoding_wins (c : Constants) (m : NHttpMsgHeader) (s : NHttpFlowData)
    (h : m.tcp_close = false)
    (h3 : ¬ (m.source_id = SourceId.SRC_SERVER ∧
      (m.status_code_num ≤ 199 ∨ m.status_code_num = 204 ∨ m.status_code_num = 304)))
    (h4 : ¬ (m.source_id = SourceId.SRC_SERVER ∧ m.request = some MethodId.METH_HEAD))
    (hlen : (m.get_header_value_norm HeaderId.HEAD_TRANSFER_ENCODING).length > 0)
    (hlast : read_int64 (m.get_header_value_norm HeaderId.HEAD_TRANSFER_ENCODING).start
      ((m.get_header_value_norm HeaderId.HEAD_TRANSFER_ENCODING).length - 8)
        = some c.TRANSCODE_CHUNKED) :
    ∃ s1, update_flow c m s = some s1 ∧
      s1.type_expected.get m.source_id = SectionType.SEC_CHUNK ∧
      s1.body_octets.get m.source_id = 0 ∧
      s1.type_expected.get m.source_id ≠ SectionType.SEC_BODY ∧
      s1.data_length = s.data_length ∧
      s1.half_reset_calls = s.half_reset_calls := by
  have hte : transfer_encoding_chunked c m = some true := by
    simp [transfer_encoding_chunked, hlen, hlast]
  rw [update_flow_headers c m s h h3 h4, hte]
  refine ⟨_, rfl, ?_, ?_, ?_, rfl, rfl⟩
  · exact Arr2.get_set_same _ _ _
  · exact Arr2.get_set_same _ _ _
  · show (s.type_expected.set m.source_id SectionType.SEC_CHUNK).get m.source_id ≠ _
    rw [Arr2.get_set_same]
    decide

/-- C2 at a client request with Transfer-Encoding "gzip, chunked" and Content-Length 50. -/
theorem C2_transfer_encoding_wins_witness :
    ∃ s1, update_flow sample_constants
        (sample_msg false SourceId.SRC_CLIENT (-11) none
          { length := 16, start := [5, 2] } (field_int64 50)) sample_flow = some s1 ∧
      s1.type_expected.get SourceId.SRC_CLIENT = SectionType.SEC_CHUNK ∧
      s1.body_octets.get SourceId.SRC_CLIENT = 0 ∧
      s1.type_expected.get SourceId.SRC_CLIENT ≠ SectionType.SEC_BODY ∧
      s1.data_length = sample_flow.data_length ∧
      s1.half_reset_calls = sample_flow.half_reset_calls :=
  C2_transfer_encoding_wins sample_constants
    (sample_msg false SourceId.SRC_CLIENT (-11) none
      { length := 16, start := [5, 2] } (field_int64 50)) sample_flow
    rfl (by decide) (by decide) (by decide) (by decide)

/-- C3: on a section that is not transport-closed, has no Transfer-Encoding value, has a
Content-Length value of positive length holding `L` with `L > 0`, and is a client section,
or a server section with a status code of 200 or more other than 204 and 304 that does
not answer a HEAD request, `update_flow` sets `type_expected[source_id] = SEC_BODY`,
`data_length[source_id] = L` and `body_octets[source_id] = 0`. -/
theorem C3_content_length_body (c : Constants) (m : NHttpMsgHeader) (s : NHttpFlowData)
    (L : Int) (h : m.tcp_close = false)
    (hte : (m.get_header_value_norm HeaderId.HEAD_TRANSFER_ENCODING).length ≤ 0)
    (hlen : (m.get_header_value_norm HeaderId.HEAD_CONTENT_LENGTH).length > 0)
    (hval : read_int64 (m.get_header_value_norm HeaderId.HEAD_CONTENT_LENGTH).start 0
      = some L)
    (hpos : L > 0)
    (hdir : m.source_id = SourceId.SRC_CLIENT ∨
      (m.source_id = SourceId.SRC_SERVER ∧ 200 ≤ m.status_code_num ∧
        m.status_code_num ≠ 204 ∧ m.status_code_num ≠ 304 ∧
        m.request ≠ some MethodId.METH_HEAD)) :
    ∃ s1, update_flow c m s = some s1 ∧
      s1.type_expected.get m.source_id = SectionType.SEC_BODY ∧
      s1.data_length.get m.source_id = L ∧
      s1.body_octets.get m.source_id = 0 := by
  have h3 : ¬ (m.source_id = SourceId.SRC_SERVER ∧
      (m.status_code_num ≤ 199 ∨ m.status_code_num = 204 ∨ m.status_code_num = 304)) := by
    rintro ⟨hs, hc⟩
    rcases hdir with hcl | ⟨_, h200, h204, h304, _⟩
    · rw [hs] at hcl
      exact SourceId.noConfusion hcl
    · rcases hc with hc | hc | hc
      · omega
      · exact h204 hc
      · exact h304 hc
  have h4 : ¬ (m.source_id = SourceId.SRC_SERVER ∧ m.request = some MethodId.METH_HEAD) := by
    rintro ⟨hs, hm⟩
    rcases hdir with hcl | ⟨_, _, _, _, hreq⟩
    · rw [hs] at hcl
      exact SourceId.noConfusion hcl
    · exact hreq hm
  have hch : transfer_encoding_chunked c m = some false := by
    simp [transfer_encoding_chunked, not_lt.mpr hte]
  have hcl : content_length_positive m = some true := by
    have hval1 : read_int64 (m.header_value_norm HeaderId.HEAD_CONTENT_LENGTH).start 0
        = some L := hval
    simp [content_length_positive, hlen, hval1, hpos]
  rw [update_flow_headers c m s h h3 h4, hch, hcl, hval]
  exact ⟨_, rfl, Arr2.get_set_same _ _ _, Arr2.get_set_same _ _ _, Arr2.get_set_same _ _ _⟩

/-- C3 at a server response 200 to GET with Content-Length 50 and no Transfer-Encoding. -/
theorem C3_content_length_body_witness :
    ∃ s1, update_flow sample_constants
        (sample_msg false SourceId.SRC_SERVER 200 (some MethodId.METH_GET)
          field_absent (field_int64 50)) sample_flow = some s1 ∧
      s1.type_expected.get SourceId.SRC_SERVER = SectionType.SEC_BODY ∧
      s1.data_length.get SourceId.SRC_SERVER = 50 ∧
      s1.body_octets.get SourceId.SRC_SERVER = 0 :=
  C3_content_length_body sample_constants
    (sample_msg false SourceId.SRC_SERVER 200 (some MethodId.METH_GET)
      field_absent (field_int64 50)) sample_flow 50
    rfl (by decide) (by decide) (by decide) (by decide) (by decide)

/-- C4: on a server section that is not transport-closed and whose status code is 204,
304 or in 100..199, `update_flow` sets `type_expected[SRC_SERVER] = SEC_STATUS` and calls
`half_reset(SRC_SERVER)`, once, whatever the Transfer-Encoding and Content-Length values
are. -/
theorem C4_status_no_body (c : Constants) (m : NHttpMsgHeader) (s : NHttpFlowData)
    (h : m.tcp_close = false) (hs : m.source_id = SourceId.SRC_SERVER)
    (hc : m.status_code_num = 204 ∨ m.status_code_num = 304 ∨
      (100 ≤ m.status_code_num ∧ m.status_code_num ≤ 199)) :
    ∃ s1, update_flow c m s = some s1 ∧
      s1 = half_reset
        { s with
          type_expected := s.type_expected.set SourceId.SRC_SERVER SectionType.SEC_STATUS }
        SourceId.SRC_SERVER ∧
      s1.type_expected.get SourceId.SRC_SERVER = SectionType.SEC_STATUS ∧
      s1.half_reset_calls = s.half_reset_calls ++ [SourceId.SRC_SERVER] := by
  have hc1 : m.status_code_num ≤ 199 ∨ m.status_code_num = 204 ∨ m.status_code_num = 304 := by
    rcases hc with hc | hc | ⟨_, hc⟩
    · exact Or.inr (Or.inl hc)
    · exact Or.inr (Or.inr hc)
    · exact Or.inl hc
  exact ⟨_, update_flow_status c m s h hs hc1, rfl, rfl, rfl⟩

/-- C4 at a server response 304 to GET with Transfer-Encoding chunked and Content-Length
50. -/
theorem C4_status_no_body_witness :
    ∃ s1, update_flow sample_constants
        (sample_msg false SourceId.SRC_SERVER 304 (some MethodId.METH_GET)
          (field_int64 2) (field_int64 50)) sample_flow = some s1 ∧
      s1 = half_reset
        { sample_flow with
          type_expected :=
            sample_flow.type_expected.set SourceId.SRC_SERVER SectionType.SEC_STATUS }
        SourceId.SRC_SERVER ∧
      s1.type_expected.get SourceId.SRC_SERVER = SectionType.SEC_STATUS ∧
      s1.half_reset_calls = sample_flow.half_reset_calls ++ [SourceId.SRC_SERVER] :=
  C4_status_no_body sample_constants
    (sample_msg false SourceId.SRC_SERVER 304 (some MethodId.METH_GET)
      (field_int64 2) (field_int64 50)) sample_flow rfl rfl (by decide)

/-- C5: on a server section that is not transport-closed and whose transaction holds a
request with method HEAD, for every status code and all header values, `update_flow` sets
`type_expected[SRC_SERVER] = SEC_STATUS` and calls `half_reset(SRC_SERVER)`, once. -/
theorem C5_head_no_body (c : Constants) (m : NHttpMsgHeader) (s : NHttpFlowData)
    (h : m.tcp_close = false) (hs : m.source_id = SourceId.SRC_SERVER)
    (hm : m.request = some MethodId.METH_HEAD) :
    ∃ s1, update_flow c m s = some s1 ∧
      s1 = half_reset
        { s with
          type_expected := s.type_expected.set SourceId.SRC_SERVER SectionType.SEC_STATUS }
        SourceId.SRC_SERVER ∧
      s1.type_expected.get SourceId.SRC_SERVER = SectionType.SEC_STATUS ∧
      s1.half_reset_calls = s.half_reset_calls ++ [SourceId.SRC_SERVER] := by
  exact ⟨_, update_flow_head c m s h hs hm, rfl, rfl, rfl⟩

/-- C5 at a server response 200 to HEAD with Transfer-Encoding chunked and Content-Length
50. -/
theorem C5_head_no_body_witness :
    ∃ s1, update_flow sample_constants
        (sample_msg false SourceId.SRC_SERVER 200 (some MethodId.METH_HEAD)
          (field_int64 2) (field_int64 50)) sample_flow = some s1 ∧
      s1 = half_reset
        { sample_flow with
          type_expected :=
            sample_flow.type_expected.set SourceId.SRC_SERVER SectionType.SEC_STATUS }
        SourceId.SRC_SERVER ∧
      s1.type_expected.get SourceId.SRC_SERVER = SectionType.SEC_STATUS ∧
      s1.half_reset_calls = sample_flow.half_reset_calls ++ [SourceId.SRC_SERVER] :=
  C5_head_no_body sample_constants
    (sample_msg false SourceId.SRC_SERVER 200 (some MethodId.METH_HEAD)
      (field_int64 2) (field_int64 50)) sample_flow rfl rfl rfl

/-- C6: on a section that is not transport-closed, whose Transfer-Encoding value is
absent or has a last code other than `TRANSCODE_CHUNKED`, and whose Content-Length value
is absent or holds a value that is not strictly positive, `update_flow` sets
`type_expected[source_id]` to `SEC_REQUEST` for the client and to `SEC_STATUS` for the
server, never to `SEC_BODY`, and calls `half_reset(source_id)`, once. -/
theorem C6_no_body_catch_all (c : Constants) (m : NHttpMsgHeader) (s : NHttpFlowData)
    (h : m.tcp_close = false)
    (hte : (m.get_header_value_norm HeaderId.HEAD_TRANSFER_ENCODING).length ≤ 0 ∨
      ∃ v, read_int64 (m.get_header_value_norm HeaderId.HEAD_TRANSFER_ENCODING).start
        ((m.get_header_value_norm HeaderId.HEAD_TRANSFER_ENCODING).length - 8) = some v ∧
        v ≠ c.TRANSCODE_CHUNKED)
    (hcl : (m.get_header_value_norm HeaderId.HEAD_CONTENT_LENGTH).length ≤ 0 ∨
      ∃ v, read_int64 (m.get_header_value_norm HeaderId.HEAD_CONTENT_LENGTH).start 0
        = some v ∧ v ≤ 0) :
    ∃ s1, update_flow c m s = some s1 ∧
      s1 = half_reset
        { s with
          type_expected := s.type_expected.set m.source_id
            (if m.source_id = SourceId.SRC_CLIENT then SectionType.SEC_REQUEST
             else SectionType.SEC_STATUS) }
        m.source_id ∧
      s1.type_expected.get m.source_id ≠ SectionType.SEC_BODY ∧
      s1.type_expected.get m.source_id =
        (if m.source_id = SourceId.SRC_CLIENT then SectionType.SEC_REQUEST
         else SectionType.SEC_STATUS) ∧
      s1.half_reset_calls = s.half_reset_calls ++ [m.source_id] := by
  have key : update_flow c m s = some (half_reset
      { s with
        type_expected := s.type_expected.set m.source_id
          (if m.source_id = SourceId.SRC_CLIENT then SectionType.SEC_REQUEST
           else SectionType.SEC_STATUS) }
      m.source_id) := by
    by_cases h3 : m.source_id = SourceId.SRC_SERVER ∧
        (m.status_code_num ≤ 199 ∨ m.status_code_num = 204 ∨ m.status_code_num = 304)
    · rw [update_flow_status c m s h h3.1 h3.2, h3.1]
      rfl
    by_cases h4 : m.source_id = SourceId.SRC_SERVER ∧ m.request = some MethodId.METH_HEAD
    · rw [update_flow_head c m s h h4.1 h4.2, h4.1]
      rfl
    have hch : transfer_encoding_chunked c m = some false := by
      unfold transfer_encoding_chunked
      rcases hte with hte | ⟨v, hv, hne⟩
      · rw [if_neg (not_lt.mpr hte)]
      · split
        · rw [hv]
          simp [hne]
        · rfl
    have hpos : content_length_positive m = some false := by
      unfold content_length_positive
      rcases hcl with hcl | ⟨v, hv, hle⟩
      · rw [if_neg (not_lt.mpr hcl)]
      · have hv1 : read_int64 (m.header_value_norm HeaderId.HEAD_CONTENT_LENGTH).start 0
            = some v := hv
        split
        · rw [hv1]
          simp [hle]
        · rfl
    rw [update_flow_headers c m s h h3 h4, hch, hpos]
  refine ⟨_, key, rfl, ?_, ?_, rfl⟩
  · rw [half_reset_type_expected]
    show (s.type_expected.set m.source_id _).get m.source_id ≠ _
    rw [Arr2.get_set_same]
    cases m.source_id <;> simp
  · rw [half_reset_type_expected]
    exact Arr2.get_set_same _ _ _

/-- C6 at a client request with neither header (the result is `SEC_REQUEST`) and at a
server response 200 to GET with Content-Length 0 (the result is `SEC_STATUS`). -/
theorem C6_no_body_catch_all_witness :
    (∃ s1, update_flow sample_constants
        (sample_msg false SourceId.SRC_CLIENT (-11) none field_absent field_absent)
        sample_flow = some s1 ∧
      s1 = half_reset
        { sample_flow with
          type_expected :=
            sample_flow.type_expected.set SourceId.SRC_CLIENT SectionType.SEC_REQUEST }
        SourceId.SRC_CLIENT ∧
      s1.type_expected.get SourceId.SRC_CLIENT ≠ SectionType.SEC_BODY ∧
      s1.type_expected.get SourceId.SRC_CLIENT = SectionType.SEC_REQUEST ∧
      s1.half_reset_calls = sample_flow.half_reset_calls ++ [SourceId.SRC_CLIENT]) ∧
    (∃ s1, update_flow sample_constants
        (sample_msg false SourceId.SRC_SERVER 200 (some MethodId.METH_GET) field_absent
          (field_int64 0))
        sample_flow = some s1 ∧
      s1 = half_reset
        { sample_flow with
          type_expected :=
            sample_flow.type_expected.set SourceId.SRC_SERVER SectionType.SEC_STATUS }
        SourceId.SRC_SERVER ∧
      s1.type_expected.get SourceId.SRC_SERVER ≠ SectionType.SEC_BODY ∧
      s1.type_expected.get SourceId.SRC_SERVER = SectionType.SEC_STATUS ∧
      s1.half_reset_calls = sample_flow.half_reset_calls ++ [SourceId.SRC_SERVER]) :=
  ⟨C6_no_body_catch_all sample_constants
      (sample_msg false SourceId.SRC_CLIENT (-11) none field_absent field_absent)
      sample_flow rfl (Or.inl (by decide)) (Or.inl (by decide)),
    C6_no_body_catch_all sample_constants
      (sample_msg false SourceId.SRC_SERVER 200 (some MethodId.METH_GET) field_absent
        (field_int64 0))
      sample_flow rfl (Or.inl (by decide)) (Or.inr ⟨0, by decide, by decide⟩)⟩

/-! ## Aggregation decision -/

/-- C7: `worth_detection` returns `RES_AGGREGATE` exactly when, for the direction of the
section, `type_expected` is `SEC_BODY`, `data_length` is at most `unused_octets_visible`
and at most `DATABLOCKSIZE`, and `section_buffer_length + msg_text.length + data_length`
is at most `MAXOCTETS`. With block cap 1024 and section cap 4096, a 200-octet header
expecting a 50-octet body with 50 octets visible and nothing buffered is aggregated; with
40 octets visible it is inspected. -/
theorem C7_aggregate_iff :
    (∀ (c : Constants) (m : NHttpMsgHeader) (s : NHttpFlowData),
      worth_detection c m s = ProcessResult.RES_AGGREGATE ↔
        (s.type_expected.get m.source_id = SectionType.SEC_BODY ∧
          s.data_length.get m.source_id ≤ s.unused_octets_visible.get m.source_id ∧
          s.data_length.get m.source_id ≤ c.DATABLOCKSIZE ∧
          s.section_buffer_length.get m.source_id + m.msg_text.length
            + s.data_length.get m.source_id ≤ c.MAXOCTETS)) ∧
    worth_detection sample_constants
      (sample_msg false SourceId.SRC_CLIENT (-11) none field_absent (field_int64 50))
      (sample_body_flow 50) = ProcessResult.RES_AGGREGATE ∧
    worth_detection sample_constants
      (sample_msg false SourceId.SRC_CLIENT (-11) none field_absent (field_int64 50))
      (sample_body_flow 40) = ProcessResult.RES_INSPECT := by
  refine ⟨?_, by decide, by decide⟩
  intro c m s
  unfold worth_detection
  constructor
  · intro h
    by_contra hno
    rw [if_neg hno] at h
    split at h <;> exact ProcessResult.noConfusion h
  · intro h
    rw [if_pos h]

/-- C8: when the conditions for `RES_AGGREGATE` do not all hold, `worth_detection` returns
`RES_INSPECT` exactly when the header text is non-empty or octets are buffered for the
direction, and `RES_IGNORE` exactly when neither is the case; an empty header with nothing
buffered and `type_expected = SEC_REQUEST` is ignored; and on every input exactly one of
the three cases applies. -/
theorem C8_inspect_or_ignore (c : Constants) (m : NHttpMsgHeader) (s : NHttpFlowData) :
    (¬ (s.type_expected.get m.source_id = SectionType.SEC_BODY ∧
          s.data_length.get m.source_id ≤ s.unused_octets_visible.get m.source_id ∧
          s.data_length.get m.source_id ≤ c.DATABLOCKSIZE ∧
          s.section_buffer_length.get m.source_id + m.msg_text.length
            + s.data_length.get m.source_id ≤ c.MAXOCTETS) →
      (worth_detection c m s = ProcessResult.RES_INSPECT ↔
        (m.msg_text.length > 0 ∨ s.section_buffer_length.get m.source_id > 0)) ∧
      (worth_detection c m s = ProcessResult.RES_IGNORE ↔
        ¬ (m.msg_text.length > 0 ∨ s.section_buffer_length.get m.source_id > 0))) ∧
    (s.type_expected.get m.source_id = SectionType.SEC_REQUEST →
      m.msg_text.length = 0 → s.section_buffer_length.get m.source_id = 0 →
      worth_detection c m s = ProcessResult.RES_IGNORE) ∧
    (((s.type_expected.get m.source_id = SectionType.SEC_BODY ∧
          s.data_length.get m.source_id ≤ s.unused_octets_visible.get m.source_id ∧
          s.data_length.get m.source_id ≤ c.DATABLOCKSIZE ∧
          s.section_buffer_length.get m.source_id + m.msg_text.length
            + s.data_length.get m.source_id ≤ c.MAXOCTETS) ∧
        worth_detection c m s = ProcessResult.RES_AGGREGATE) ∨
      (¬ (s.type_expected.get m.source_id = SectionType.SEC_BODY ∧
          s.data_length.get m.source_id ≤ s.unused_octets_visible.get m.source_id ∧
          s.data_length.get m.source_id ≤ c.DATABLOCKSIZE ∧
          s.section_buffer_length.get m.source_id + m.msg_text.length
            + s.data_length.get m.source_id ≤ c.MAXOCTETS) ∧
        (m.msg_text.length > 0 ∨ s.section_buffer_length.get m.source_id > 0) ∧
        worth_detection c m s = ProcessResult.RES_INSPECT) ∨
      (¬ (s.type_expected.get m.source_id = SectionType.SEC_BODY ∧
          s.data_length.get m.source_id ≤ s.unused_octets_visible.get m.source_id ∧
          s.data_length.get m.source_id ≤ c.DATABLOCKSIZE ∧
          s.section_buffer_length.get m.source_id + m.msg_text.length
            + s.data_length.get m.source_id ≤ c.MAXOCTETS) ∧
        ¬ (m.msg_text.length > 0 ∨ s.section_buffer_length.get m.source_id > 0) ∧
        worth_detection c m s = ProcessResult.RES_IGNORE)) := by
  refine ⟨?_, ?_, ?_⟩
  · intro hno
    unfold worth_detection
    rw [if_neg hno]
    constructor
    · constructor
      · intro h
        by_contra hA
        rw [if_neg hA] at h
        exact ProcessResult.noConfusion h
      · intro hA
        rw [if_pos hA]
    · constructor
      · intro h hA
        rw [if_pos hA] at h
        exact ProcessResult.noConfusion h
      · intro hA
        rw [if_neg hA]
  · intro ht h0 hb
    unfold worth_detection
    rw [if_neg, if_neg]
    · rw [h0, hb]
      decide
    · rw [ht]
      rintro ⟨hbody, _⟩
      exact SectionType.noConfusion hbody
  · unfold worth_detection
    by_cases hagg : (s.type_expected.get m.source_id = SectionType.SEC_BODY ∧
          s.data_length.get m.source_id ≤ s.unused_octets_visible.get m.source_id ∧
          s.data_length.get m.source_id ≤ c.DATABLOCKSIZE ∧
          s.section_buffer_length.get m.source_id + m.msg_text.length
            + s.data_length.get m.source_id ≤ c.MAXOCTETS)
    · exact Or.inl ⟨hagg, if_pos hagg⟩
    · by_cases hA : m.msg_text.length > 0 ∨ s.section_buffer_length.get m.source_id > 0
      · refine Or.inr (Or.inl ⟨hagg, hA, ?_⟩)
        rw [if_neg hagg, if_pos hA]
      · refine Or.inr (Or.inr ⟨hagg, hA, ?_⟩)
        rw [if_neg hagg, if_neg hA]

/-- C8 at an empty client header with nothing buffered and a new request expected: it is
ignored; and at a 200-octet header whose 50-octet body is not yet wholly visible: it is
inspected. -/
theorem C8_inspect_or_ignore_witness :
    worth_detection sample_constants sample_empty_msg sample_request_flow
      = ProcessResult.RES_IGNORE ∧
    (worth_detection sample_constants
      (sample_msg false SourceId.SRC_CLIENT (-11) none field_absent (field_int64 50))
      (sample_body_flow 40) = ProcessResult.RES_INSPECT ↔
      ((sample_msg false SourceId.SRC_CLIENT (-11) none field_absent
          (field_int64 50)).msg_text.length > 0 ∨
        (sample_body_flow 40).section_buffer_length.get SourceId.SRC_CLIENT > 0)) :=
  ⟨(C8_inspect_or_ignore sample_constants sample_empty_msg sample_request_flow).2.1
      rfl rfl rfl,
    ((C8_inspect_or_ignore sample_constants
      (sample_msg false SourceId.SRC_CLIENT (-11) none field_absent (field_int64 50))
      (sample_body_flow 40)).1 (by decide)).1⟩

/-! ## Events -/

/-- C9: the step of `gen_events` that follows the shared one adds `EVENT_MULTIPLE_CONTLEN`
to the events exactly once when `header_count[HEAD_CONTENT_LENGTH] > 1`, whatever the
count, and adds nothing when the count is at most 1; it leaves the flow data as the
shared step left it. -/
theorem C9_multiple_content_length_event
    (shared_gen_events : NHttpMsgHeader → Inspection → Inspection)
    (m : NHttpMsgHeader) (w : Inspection) :
    (gen_events shared_gen_events m w).events =
      (shared_gen_events m w).events ++
        (if m.header_count HeaderId.HEAD_CONTENT_LENGTH > 1
         then [EventSid.EVENT_MULTIPLE_CONTLEN] else []) ∧
    (gen_events shared_gen_events m w).events.count EventSid.EVENT_MULTIPLE_CONTLEN =
      (shared_gen_events m w).events.count EventSid.EVENT_MULTIPLE_CONTLEN +
        (if m.header_count HeaderId.HEAD_CONTENT_LENGTH > 1 then 1 else 0) ∧
    (gen_events shared_gen_events m w).session_data
      = (shared_gen_events m w).session_data := by
  unfold gen_events
  by_cases h : m.header_count HeaderId.HEAD_CONTENT_LENGTH > 1
  · simp [h, create_event]
  · simp [h]

/-! ## Invariants of the classifier -/

/-- C10: whatever the section and the prior flow data, if `update_flow` leaves
`type_expected[source_id]` at `SEC_BODY` or `SEC_CHUNK`, then `body_octets[source_id]` is
0 afterwards. -/
theorem C10_body_octets_reset (c : Constants) (m : NHttpMsgHeader) (s s1 : NHttpFlowData)
    (h : update_flow c m s = some s1)
    (ht : s1.type_expected.get m.source_id = SectionType.SEC_BODY ∨
      s1.type_expected.get m.source_id = SectionType.SEC_CHUNK) :
    s1.body_octets.get m.source_id = 0 := by
  rcases update_flow_cases c m s s1 h with ⟨t, ht3, hs1⟩ | hs1 | ⟨L, _, _, hs1⟩
  · exfalso
    have hty : s1.type_expected.get m.source_id = t := by
      rw [hs1, half_reset_type_expected]
      exact Arr2.get_set_same _ _ _
    rw [hty] at ht
    rcases ht3 with rfl | rfl | rfl <;> rcases ht with ht | ht <;>
      exact SectionType.noConfusion ht
  · rw [hs1]
    exact Arr2.get_set_same _ _ _
  · rw [hs1]
    exact Arr2.get_set_same _ _ _

/-- C10 on flow data whose `body_octets` were left at 33 and 44 by an earlier message: a
client request with Content-Length 50, and a server response with a chunked
Transfer-Encoding. -/
theorem C10_body_octets_reset_witness :
    sample_flow.body_octets.get SourceId.SRC_CLIENT = 33 ∧
    sample_flow.body_octets.get SourceId.SRC_SERVER = 44 ∧
    update_flow sample_constants
        (sample_msg false SourceId.SRC_CLIENT (-11) none field_absent (field_int64 50))
        sample_flow
      = some { sample_flow with
          type_expected := { client := SectionType.SEC_BODY, server := SectionType.SEC_HEADER }
          data_length := { client := 50, server := 88 }
          body_octets := { client := 0, server := 44 } } ∧
    ({ sample_flow with
          type_expected := { client := SectionType.SEC_BODY, server := SectionType.SEC_HEADER }
          data_length := { client := 50, server := 88 }
          body_octets := { client := 0, server := 44 } } : NHttpFlowData).body_octets.get
        SourceId.SRC_CLIENT = 0 ∧
    update_flow sample_constants
        (sample_msg false SourceId.SRC_SERVER 200 (some MethodId.METH_GET) (field_int64 2)
          field_absent)
        sample_flow
      = some { sample_flow with
          type_expected := { client := SectionType.SEC_HEADER, server := SectionType.SEC_CHUNK }
          body_octets := { client := 33, server := 0 } } ∧
    ({ sample_flow with
          type_expected := { client := SectionType.SEC_HEADER, server := SectionType.SEC_CHUNK }
          body_octets := { client := 33, server := 0 } } : NHttpFlowData).body_octets.get
        SourceId.SRC_SERVER = 0 :=
  ⟨rfl, rfl, by decide,
    C10_body_octets_reset sample_constants
      (sample_msg false SourceId.SRC_CLIENT (-11) none field_absent (field_int64 50))
      sample_flow _ (by decide) (Or.inl rfl),
    by decide,
    C10_body_octets_reset sample_constants
      (sample_msg false SourceId.SRC_SERVER 200 (some MethodId.METH_GET) (field_int64 2)
        field_absent)
      sample_flow _ (by decide) (Or.inr rfl)⟩

/-! ## Further helper lemmas -/

/-- The chunked guard is false exactly when the Transfer-Encoding value is absent or its
last code is read and differs from `TRANSCODE_CHUNKED`. -/
theorem transfer_encoding_chunked_false (c : Constants) (m : NHttpMsgHeader) :
    transfer_encoding_chunked c m = some false ↔
      ((m.get_header_value_norm HeaderId.HEAD_TRANSFER_ENCODING).length ≤ 0 ∨
        ∃ v, read_int64 (m.get_header_value_norm HeaderId.HEAD_TRANSFER_ENCODING).start
          ((m.get_header_value_norm HeaderId.HEAD_TRANSFER_ENCODING).length - 8) = some v ∧
          v ≠ c.TRANSCODE_CHUNKED) := by
  unfold transfer_encoding_chunked
  by_cases hlen : (m.get_header_value_norm HeaderId.HEAD_TRANSFER_ENCODING).length > 0
  · rw [if_pos hlen]
    cases hr : read_int64 (m.get_header_value_norm HeaderId.HEAD_TRANSFER_ENCODING).start
      ((m.get_header_value_norm HeaderId.HEAD_TRANSFER_ENCODING).length - 8) with
    | none => simp [not_le.mpr hlen]
    | some v => simp [not_le.mpr hlen]
  · rw [if_neg hlen]
    simp [not_lt.mp hlen]

/-- The regular-body guard is true exactly when the Content-Length value has positive
length and the integer read at its start is positive. -/
theorem content_length_positive_true (m : NHttpMsgHeader) :
    content_length_positive m = some true ↔
      ((m.get_header_value_norm HeaderId.HEAD_CONTENT_LENGTH).length > 0 ∧
        ∃ L, read_int64 (m.get_header_value_norm HeaderId.HEAD_CONTENT_LENGTH).start 0
          = some L ∧ L > 0) := by
  unfold content_length_positive
  show (if (m.get_header_value_norm HeaderId.HEAD_CONTENT_LENGTH).length > 0 then
      (read_int64 (m.get_header_value_norm HeaderId.HEAD_CONTENT_LENGTH).start 0).map
        (fun v => decide (v > 0))
    else some false) = some true ↔ _
  by_cases hlen : (m.get_header_value_norm HeaderId.HEAD_CONTENT_LENGTH).length > 0
  · rw [if_pos hlen]
    cases hr : read_int64 (m.get_header_value_norm HeaderId.HEAD_CONTENT_LENGTH).start 0 with
    | none => simp
    | some v => simp [hlen]
  · rw [if_neg hlen]
    simp [hlen]

/-- Every result of `update_flow` comes from one of its branches, with the guards that
lead there. -/
theorem update_flow_shape (c : Constants) (m : NHttpMsgHeader) (s s1 : NHttpFlowData)
    (h : update_flow c m s = some s1) :
    (m.tcp_close = true ∧
      s1 = half_reset
        { s with type_expected := s.type_expected.set m.source_id SectionType.SEC_CLOSED }
        m.source_id) ∨
    (m.tcp_close = false ∧ m.source_id = SourceId.SRC_SERVER ∧
      ((m.status_code_num ≤ 199 ∨ m.status_code_num = 204 ∨ m.status_code_num = 304) ∨
        m.request = some MethodId.METH_HEAD) ∧
      s1 = half_reset
        { s with type_expected := s.type_expected.set m.source_id SectionType.SEC_STATUS }
        m.source_id) ∨
    (m.tcp_close = false ∧
      ¬ (m.source_id = SourceId.SRC_SERVER ∧
        (m.status_code_num ≤ 199 ∨ m.status_code_num = 204 ∨ m.status_code_num = 304)) ∧
      ¬ (m.source_id = SourceId.SRC_SERVER ∧ m.request = some MethodId.METH_HEAD) ∧
      ((transfer_encoding_chunked c m = some true ∧
        s1 = { s with
          type_expected := s.type_expected.set m.source_id SectionType.SEC_CHUNK
          body_octets := s.body_octets.set m.source_id 0 }) ∨
      (transfer_encoding_chunked c m = some false ∧
        content_length_positive m = some true ∧
        ∃ L, L > 0 ∧
          read_int64 (m.get_header_value_norm HeaderId.HEAD_CONTENT_LENGTH).start 0
            = some L ∧
          s1 = { s with
            type_expected := s.type_expected.set m.source_id SectionType.SEC_BODY
            data_length := s.data_length.set m.source_id L
            body_octets := s.body_octets.set m.source_id 0 }) ∨
      (transfer_encoding_chunked c m = some false ∧
        content_length_positive m = some false ∧
        s1 = half_reset
          { s with
            type_expected := s.type_expected.set m.source_id
              (if m.source_id = SourceId.SRC_CLIENT then SectionType.SEC_REQUEST
               else SectionType.SEC_STATUS) }
          m.source_id))) := by
  by_cases hc : m.tcp_close = true
  · rw [update_flow_closed c m s hc] at h
    exact Or.inl ⟨hc, (Option.some.inj h).symm⟩
  have hc : m.tcp_close = false := by simpa using hc
  by_cases h3 : m.source_id = SourceId.SRC_SERVER ∧
      (m.status_code_num ≤ 199 ∨ m.status_code_num = 204 ∨ m.status_code_num = 304)
  · rw [update_flow_status c m s hc h3.1 h3.2] at h
    refine Or.inr (Or.inl ⟨hc, h3.1, Or.inl h3.2, ?_⟩)
    rw [h3.1]
    exact (Option.some.inj h).symm
  by_cases h4 : m.source_id = SourceId.SRC_SERVER ∧ m.request = some MethodId.METH_HEAD
  · rw [update_flow_head c m s hc h4.1 h4.2] at h
    refine Or.inr (Or.inl ⟨hc, h4.1, Or.inr h4.2, ?_⟩)
    rw [h4.1]
    exact (Option.some.inj h).symm
  refine Or.inr (Or.inr ⟨hc, h3, h4, ?_⟩)
  rw [update_flow_headers c m s hc h3 h4] at h
  cases hte : transfer_encoding_chunked c m with
  | none => rw [hte] at h; exact absurd h (by simp)
  | some b =>
    cases b with
    | true =>
      rw [hte] at h
      exact Or.inl ⟨rfl, (Option.some.inj h).symm⟩
    | false =>
      rw [hte] at h
      cases hcl : content_length_positive m with
      | none => rw [hcl] at h; exact absurd h (by simp)
      | some b2 =>
        cases b2 with
        | true =>
          rw [hcl] at h
          obtain ⟨_, L, hL, hpos⟩ := (content_length_positive_true m).mp hcl
          rw [hL] at h
          exact Or.inr (Or.inl ⟨rfl, rfl, L, hpos, hL, (Option.some.inj h).symm⟩)
        | false =>
          rw [hcl] at h
          exact Or.inr (Or.inr ⟨rfl, rfl, (Option.some.inj h).symm⟩)

/-- The value `update_flow` leaves in `type_expected[source_id]` is the one written by
the branch taken: `half_reset` does not touch it. -/
theorem half_reset_type_get (s : NHttpFlowData) (i : SourceId) (t : SectionType) :
    (half_reset { s with type_expected := s.type_expected.set i t } i).type_expected.get i
      = t := by
  rw [half_reset_type_expected]
  exact Arr2.get_set_same _ _ _

/-- Two sections that agree on what `update_flow` reads give the same result. -/
theorem update_flow_congr (c : Constants) (m m2 : NHttpMsgHeader) (s : NHttpFlowData)
    (h1 : m2.tcp_close = m.tcp_close) (h2 : m2.infractions = m.infractions)
    (h3 : m2.source_id = m.source_id) (h4 : m2.status_code_num = m.status_code_num)
    (h5 : m2.request = m.request)
    (h6 : m2.header_value_norm HeaderId.HEAD_TRANSFER_ENCODING
      = m.header_value_norm HeaderId.HEAD_TRANSFER_ENCODING)
    (h7 : m2.header_value_norm HeaderId.HEAD_CONTENT_LENGTH
      = m.header_value_norm HeaderId.HEAD_CONTENT_LENGTH) :
    update_flow c m2 s = update_flow c m s := by
  simp only [update_flow, transfer_encoding_chunked, content_length_positive,
    NHttpMsgHeader.get_header_value_norm, h1, h2, h3, h4, h5, h6, h7]

/-- When the two guarded reads are inside their fields, `update_flow` returns. -/
theorem update_flow_total (c : Constants) (m : NHttpMsgHeader) (s : NHttpFlowData)
    (hte : (m.get_header_value_norm HeaderId.HEAD_TRANSFER_ENCODING).length > 0 →
      (read_int64 (m.get_header_value_norm HeaderId.HEAD_TRANSFER_ENCODING).start
        ((m.get_header_value_norm HeaderId.HEAD_TRANSFER_ENCODING).length - 8)).isSome
        = true)
    (hcl : (m.get_header_value_norm HeaderId.HEAD_CONTENT_LENGTH).length > 0 →
      (read_int64 (m.get_header_value_norm HeaderId.HEAD_CONTENT_LENGTH).start 0).isSome
        = true) :
    ∃ s1, update_flow c m s = some s1 := by
  by_cases hc : m.tcp_close = true
  · exact ⟨_, update_flow_closed c m s hc⟩
  have hc : m.tcp_close = false := by simpa using hc
  by_cases h3 : m.source_id = SourceId.SRC_SERVER ∧
      (m.status_code_num ≤ 199 ∨ m.status_code_num = 204 ∨ m.status_code_num = 304)
  · exact ⟨_, update_flow_status c m s hc h3.1 h3.2⟩
  by_cases h4 : m.source_id = SourceId.SRC_SERVER ∧ m.request = some MethodId.METH_HEAD
  · exact ⟨_, update_flow_head c m s hc h4.1 h4.2⟩
  rw [update_flow_headers c m s hc h3 h4]
  have hte1 : ∃ b, transfer_encoding_chunked c m = some b := by
    unfold transfer_encoding_chunked
    split
    · rename_i hlen
      obtain ⟨v, hv⟩ := Option.isSome_iff_exists.mp (hte hlen)
      rw [hv]
      exact ⟨_, rfl⟩
    · exact ⟨_, rfl⟩
  obtain ⟨b, hb⟩ := hte1
  rw [hb]
  cases b with
  | true => exact ⟨_, rfl⟩
  | false =>
    by_cases hlen : (m.get_header_value_norm HeaderId.HEAD_CONTENT_LENGTH).length > 0
    · obtain ⟨v, hv⟩ := Option.isSome_iff_exists.mp (hcl hlen)
      have hv1 : read_int64 (m.header_value_norm HeaderId.HEAD_CONTENT_LENGTH).start 0
          = some v := hv
      have hcp : content_length_positive m = some (decide (v > 0)) := by
        unfold content_length_positive
        rw [if_pos hlen, hv1]
        rfl
      rw [hcp]
      by_cases hv0 : v > 0
      · simp only [hv0, decide_True, hv]
        exact ⟨_, rfl⟩
      · simp only [hv0, decide_False]
        exact ⟨_, rfl⟩
    · have hcp : content_length_positive m = some false := by
        unfold content_length_positive
        rw [if_neg hlen]
      rw [hcp]
      exact ⟨_, rfl⟩

/-- Two runs of `update_flow` on one section from two prior states agree on the type they
leave for the direction, on `data_length` when that type is `SEC_BODY`, and on
`body_octets` when it is `SEC_BODY` or `SEC_CHUNK`. -/
theorem update_flow_same_section (c : Constants) (m : NHttpMsgHeader)
    (s s2 s1 s3 : NHttpFlowData)
    (h : update_flow c m s = some s1) (h2 : update_flow c m s2 = some s3) :
    s1.type_expected.get m.source_id = s3.type_expected.get m.source_id ∧
    (s1.type_expected.get m.source_id = SectionType.SEC_BODY →
      s1.data_length.get m.source_id = s3.data_length.get m.source_id) ∧
    (s1.type_expected.get m.source_id = SectionType.SEC_BODY ∨
        s1.type_expected.get m.source_id = SectionType.SEC_CHUNK →
      s1.body_octets.get m.source_id = s3.body_octets.get m.source_id) := by
  have reset : ∀ t : SectionType, t ≠ SectionType.SEC_BODY → t ≠ SectionType.SEC_CHUNK →
      s1 = half_reset { s with type_expected := s.type_expected.set m.source_id t }
        m.source_id →
      s3 = half_reset { s2 with type_expected := s2.type_expected.set m.source_id t }
        m.source_id →
      s1.type_expected.get m.source_id = s3.type_expected.get m.source_id ∧
      (s1.type_expected.get m.source_id = SectionType.SEC_BODY →
        s1.data_length.get m.source_id = s3.data_length.get m.source_id) ∧
      (s1.type_expected.get m.source_id = SectionType.SEC_BODY ∨
          s1.type_expected.get m.source_id = SectionType.SEC_CHUNK →
        s1.body_octets.get m.source_id = s3.body_octets.get m.source_id) := by
    intro t hb hk e1 e3
    have t1 : s1.type_expected.get m.source_id = t := by
      rw [e1]; exact half_reset_type_get _ _ _
    have t3 : s3.type_expected.get m.source_id = t := by
      rw [e3]; exact half_reset_type_get _ _ _
    refine ⟨by rw [t1, t3], ?_, ?_⟩
    · intro hB
      rw [t1] at hB
      exact absurd hB hb
    · intro hB
      rw [t1] at hB
      rcases hB with hB | hB
      · exact absurd hB hb
      · exact absurd hB hk
  rcases update_flow_shape c m s s1 h with ⟨hc, e1⟩ | ⟨hc, hs, hr, e1⟩ | ⟨hc, h3, h4, e1⟩
  · rw [update_flow_closed c m s2 hc] at h2
    exact reset _ (by decide) (by decide) e1 (Option.some.inj h2).symm
  · have e3 : s3 = half_reset
        { s2 with
          type_expected := s2.type_expected.set m.source_id SectionType.SEC_STATUS }
        m.source_id := by
      rcases hr with hr | hr
      · rw [update_flow_status c m s2 hc hs hr] at h2
        rw [hs]
        exact (Option.some.inj h2).symm
      · rw [update_flow_head c m s2 hc hs hr] at h2
        rw [hs]
        exact (Option.some.inj h2).symm
    exact reset _ (by decide) (by decide) e1 e3
  · rw [update_flow_headers c m s2 hc h3 h4] at h2
    rcases e1 with ⟨hte, e1⟩ | ⟨hte, hcl, L, _, hL, e1⟩ | ⟨hte, hcl, e1⟩
    · rw [hte] at h2
      have e3 := (Option.some.inj h2).symm
      rw [e1, e3]
      refine ⟨?_, ?_, ?_⟩
      · show (s.type_expected.set m.source_id _).get m.source_id
          = (s2.type_expected.set m.source_id _).get m.source_id
        rw [Arr2.get_set_same, Arr2.get_set_same]
      · intro hB
        have hB1 : (s.type_expected.set m.source_id SectionType.SEC_CHUNK).get m.source_id
            = SectionType.SEC_BODY := hB
        rw [Arr2.get_set_same] at hB1
        exact SectionType.noConfusion hB1
      · intro _
        show (s.body_octets.set m.source_id 0).get m.source_id
          = (s2.body_octets.set m.source_id 0).get m.source_id
        rw [Arr2.get_set_same, Arr2.get_set_same]
    · rw [hte, hcl, hL] at h2
      have e3 := (Option.some.inj h2).symm
      rw [e1, e3]
      refine ⟨?_, ?_, ?_⟩
      · show (s.type_expected.set m.source_id _).get m.source_id
          = (s2.type_expected.set m.source_id _).get m.source_id
        rw [Arr2.get_set_same, Arr2.get_set_same]
      · intro _
        show (s.data_length.set m.source_id L).get m.source_id
          = (s2.data_length.set m.source_id L).get m.source_id
        rw [Arr2.get_set_same, Arr2.get_set_same]
      · intro _
        show (s.body_octets.set m.source_id 0).get m.source_id
          = (s2.body_octets.set m.source_id 0).get m.source_id
        rw [Arr2.get_set_same, Arr2.get_set_same]
    · rw [hte, hcl] at h2
      refine reset _ ?_ ?_ e1 (Option.some.inj h2).symm
      · cases m.source_id <;> simp
      · cases m.source_id <;> simp

/-! ## Hyperproperties and frame of the classifier -/

/-- C11: `update_flow` returns on every section whose two guarded reads are inside their
fields, and what it leaves for the direction depends on the section inputs alone: two
sections that agree on `tcp_close`, `infractions`, direction, status code, paired request
method and the normalized Transfer-Encoding and Content-Length values, run from any two
prior states and with any header counts, give the same `type_expected[source_id]`, the
same `data_length[source_id]` when it is `SEC_BODY`, and the same `body_octets[source_id]`
when it is `SEC_BODY` or `SEC_CHUNK`. -/
theorem C11_total_and_deterministic (c : Constants) (m m2 : NHttpMsgHeader)
    (s s2 : NHttpFlowData)
    (h1 : m2.tcp_close = m.tcp_close) (h2 : m2.infractions = m.infractions)
    (h3 : m2.source_id = m.source_id) (h4 : m2.status_code_num = m.status_code_num)
    (h5 : m2.request = m.request)
    (h6 : m2.header_value_norm HeaderId.HEAD_TRANSFER_ENCODING
      = m.header_value_norm HeaderId.HEAD_TRANSFER_ENCODING)
    (h7 : m2.header_value_norm HeaderId.HEAD_CONTENT_LENGTH
      = m.header_value_norm HeaderId.HEAD_CONTENT_LENGTH)
    (hte : (m.get_header_value_norm HeaderId.HEAD_TRANSFER_ENCODING).length > 0 →
      (read_int64 (m.get_header_value_norm HeaderId.HEAD_TRANSFER_ENCODING).start
        ((m.get_header_value_norm HeaderId.HEAD_TRANSFER_ENCODING).length - 8)).isSome
        = true)
    (hcl : (m.get_header_value_norm HeaderId.HEAD_CONTENT_LENGTH).length > 0 →
      (read_int64 (m.get_header_value_norm HeaderId.HEAD_CONTENT_LENGTH).start 0).isSome
        = true) :
    ∃ s1 s3, update_flow c m s = some s1 ∧ update_flow c m2 s2 = some s3 ∧
      s1.type_expected.get m.source_id = s3.type_expected.get m.source_id ∧
      (s1.type_expected.get m.source_id = SectionType.SEC_BODY →
        s1.data_length.get m.source_id = s3.data_length.get m.source_id) ∧
      (s1.type_expected.get m.source_id = SectionType.SEC_BODY ∨
          s1.type_expected.get m.source_id = SectionType.SEC_CHUNK →
        s1.body_octets.get m.source_id = s3.body_octets.get m.source_id) := by
  obtain ⟨s1, e1⟩ := update_flow_total c m s hte hcl
  obtain ⟨s3, e3⟩ := update_flow_total c m s2 hte hcl
  refine ⟨s1, s3, e1, ?_, update_flow_same_section c m s s2 s1 s3 e1 e3⟩
  rw [update_flow_congr c m m2 s2 h1 h2 h3 h4 h5 h6 h7]
  exact e3

/-- C11 at a client request with Content-Length 50, run from two different prior states,
the second time with three Content-Length headers counted. -/
theorem C11_total_and_deterministic_witness :
    ∃ s1 s3,
      update_flow sample_constants
        (sample_msg false SourceId.SRC_CLIENT (-11) none field_absent (field_int64 50))
        sample_flow = some s1 ∧
      update_flow sample_constants
        (sample_variant
          (sample_msg false SourceId.SRC_CLIENT (-11) none field_absent (field_int64 50)))
        sample_request_flow = some s3 ∧
      s1.type_expected.get SourceId.SRC_CLIENT = s3.type_expected.get SourceId.SRC_CLIENT ∧
      (s1.type_expected.get SourceId.SRC_CLIENT = SectionType.SEC_BODY →
        s1.data_length.get SourceId.SRC_CLIENT = s3.data_length.get SourceId.SRC_CLIENT) ∧
      (s1.type_expected.get SourceId.SRC_CLIENT = SectionType.SEC_BODY ∨
          s1.type_expected.get SourceId.SRC_CLIENT = SectionType.SEC_CHUNK →
        s1.body_octets.get SourceId.SRC_CLIENT = s3.body_octets.get SourceId.SRC_CLIENT) :=
  C11_total_and_deterministic sample_constants
    (sample_msg false SourceId.SRC_CLIENT (-11) none field_absent (field_int64 50))
    (sample_variant
      (sample_msg false SourceId.SRC_CLIENT (-11) none field_absent (field_int64 50)))
    sample_flow sample_request_flow rfl rfl rfl rfl rfl rfl rfl (by decide) (by decide)

/-- C16: the fatal-infraction guard of `update_flow` is false for all infraction bits,
and no result has `type_expected[source_id] = SEC_ABORT`; for a client section the type
left is `SEC_CLOSED`, `SEC_CHUNK`, `SEC_BODY` or `SEC_REQUEST`, never `SEC_STATUS`; for a
server section it is `SEC_CLOSED`, `SEC_CHUNK`, `SEC_BODY` or `SEC_STATUS`, never
`SEC_REQUEST`. -/
theorem C16_reachable_results (c : Constants) (m : NHttpMsgHeader) (s s1 : NHttpFlowData)
    (h : update_flow c m s = some s1) :
    m.infractions &&& disaster_mask = 0 ∧
    s1.type_expected.get m.source_id ≠ SectionType.SEC_ABORT ∧
    (m.source_id = SourceId.SRC_CLIENT →
      (s1.type_expected.get m.source_id = SectionType.SEC_CLOSED ∨
        s1.type_expected.get m.source_id = SectionType.SEC_CHUNK ∨
        s1.type_expected.get m.source_id = SectionType.SEC_BODY ∨
        s1.type_expected.get m.source_id = SectionType.SEC_REQUEST) ∧
      s1.type_expected.get m.source_id ≠ SectionType.SEC_STATUS) ∧
    (m.source_id = SourceId.SRC_SERVER →
      (s1.type_expected.get m.source_id = SectionType.SEC_CLOSED ∨
        s1.type_expected.get m.source_id = SectionType.SEC_CHUNK ∨
        s1.type_expected.get m.source_id = SectionType.SEC_BODY ∨
        s1.type_expected.get m.source_id = SectionType.SEC_STATUS) ∧
      s1.type_expected.get m.source_id ≠ SectionType.SEC_REQUEST) := by
  have hmask : m.infractions &&& disaster_mask = 0 := by simp [disaster_mask]
  have key : s1.type_expected.get m.source_id = SectionType.SEC_CLOSED ∨
      s1.type_expected.get m.source_id = SectionType.SEC_CHUNK ∨
      s1.type_expected.get m.source_id = SectionType.SEC_BODY ∨
      (m.source_id = SourceId.SRC_SERVER ∧
        s1.type_expected.get m.source_id = SectionType.SEC_STATUS) ∨
      (m.source_id = SourceId.SRC_CLIENT ∧
        s1.type_expected.get m.source_id = SectionType.SEC_REQUEST) := by
    rcases update_flow_shape c m s s1 h with ⟨_, e1⟩ | ⟨_, hs, _, e1⟩ | ⟨_, _, _, e1⟩
    · rw [e1]
      exact Or.inl (half_reset_type_get _ _ _)
    · rw [e1]
      exact Or.inr (Or.inr (Or.inr (Or.inl ⟨hs, half_reset_type_get _ _ _⟩)))
    · rcases e1 with ⟨_, e1⟩ | ⟨_, _, L, _, _, e1⟩ | ⟨_, _, e1⟩
      · rw [e1]
        exact Or.inr (Or.inl (Arr2.get_set_same _ _ _))
      · rw [e1]
        exact Or.inr (Or.inr (Or.inl (Arr2.get_set_same _ _ _)))
      · rw [e1, half_reset_type_get]
        cases hsrc : m.source_id
        · exact Or.inr (Or.inr (Or.inr (Or.inr ⟨rfl, by simp⟩)))
        · exact Or.inr (Or.inr (Or.inr (Or.inl ⟨rfl, by simp⟩)))
  refine ⟨hmask, ?_, ?_, ?_⟩
  · rcases key with k | k | k | ⟨_, k⟩ | ⟨_, k⟩ <;> rw [k] <;> decide
  · intro hcl
    rcases key with k | k | k | ⟨hs, _⟩ | ⟨_, k⟩
    · exact ⟨Or.inl k, by rw [k]; decide⟩
    · exact ⟨Or.inr (Or.inl k), by rw [k]; decide⟩
    · exact ⟨Or.inr (Or.inr (Or.inl k)), by rw [k]; decide⟩
    · rw [hcl] at hs
      exact SourceId.noConfusion hs
    · exact ⟨Or.inr (Or.inr (Or.inr k)), by rw [k]; decide⟩
  · intro hsv
    rcases key with k | k | k | ⟨_, k⟩ | ⟨hs, _⟩
    · exact ⟨Or.inl k, by rw [k]; decide⟩
    · exact ⟨Or.inr (Or.inl k), by rw [k]; decide⟩
    · exact ⟨Or.inr (Or.inr (Or.inl k)), by rw [k]; decide⟩
    · exact ⟨Or.inr (Or.inr (Or.inr k)), by rw [k]; decide⟩
    · rw [hsv] at hs
      exact SourceId.noConfusion hs

/-- C16 at a server response 200 to GET with infraction bits 5 and no framing header: the
result is `SEC_STATUS`. -/
theorem C16_reachable_results_witness :
    update_flow sample_constants
        (sample_msg false SourceId.SRC_SERVER 200 (some MethodId.METH_GET) field_absent
          field_absent) sample_flow
      = some (half_reset
        { sample_flow with
          type_expected := { client := SectionType.SEC_HEADER, server := SectionType.SEC_STATUS } }
        SourceId.SRC_SERVER) ∧
    (5 : Nat) &&& disaster_mask = 0 ∧
    (half_reset
        { sample_flow with
          type_expected := { client := SectionType.SEC_HEADER, server := SectionType.SEC_STATUS } }
        SourceId.SRC_SERVER).type_expected.get SourceId.SRC_SERVER
      ≠ SectionType.SEC_ABORT :=
  ⟨by decide,
    (C16_reachable_results sample_constants
      (sample_msg false SourceId.SRC_SERVER 200 (some MethodId.METH_GET) field_absent
        field_absent) sample_flow
      (half_reset
        { sample_flow with
          type_expected := { client := SectionType.SEC_HEADER, server := SectionType.SEC_STATUS } }
        SourceId.SRC_SERVER) (by decide)).1,
    (C16_reachable_results sample_constants
      (sample_msg false SourceId.SRC_SERVER 200 (some MethodId.METH_GET) field_absent
        field_absent) sample_flow
      (half_reset
        { sample_flow with
          type_expected := { client := SectionType.SEC_HEADER, server := SectionType.SEC_STATUS } }
        SourceId.SRC_SERVER) (by decide)).2.1⟩

/-- C17: `update_flow` on a section of direction `d` leaves `type_expected`, `data_length`
and `body_octets` of the other direction as they were and calls `half_reset` not at all
or once with `d`. Its own writes are: `type_expected[d]` alone, followed by
`half_reset(d)`, when the type left is neither `SEC_BODY` nor `SEC_CHUNK`;
`type_expected[d]` and `body_octets[d]`, without `half_reset`, for `SEC_CHUNK`;
`type_expected[d]`, `data_length[d]` and `body_octets[d]`, without `half_reset`, for
`SEC_BODY`. -/
theorem C17_direction_frame (c : Constants) (m : NHttpMsgHeader) (s s1 : NHttpFlowData)
    (h : update_flow c m s = some s1) :
    (∀ j, j ≠ m.source_id →
      s1.type_expected.get j = s.type_expected.get j ∧
      s1.data_length.get j = s.data_length.get j ∧
      s1.body_octets.get j = s.body_octets.get j) ∧
    (s1.half_reset_calls = s.half_reset_calls ∨
      s1.half_reset_calls = s.half_reset_calls ++ [m.source_id]) ∧
    ((s1.type_expected.get m.source_id ≠ SectionType.SEC_BODY ∧
        s1.type_expected.get m.source_id ≠ SectionType.SEC_CHUNK ∧
        s1 = half_reset
          { s with
            type_expected :=
              s.type_expected.set m.source_id (s1.type_expected.get m.source_id) }
          m.source_id) ∨
      (s1.type_expected.get m.source_id = SectionType.SEC_CHUNK ∧
        s1 = { s with
          type_expected := s.type_expected.set m.source_id SectionType.SEC_CHUNK
          body_octets := s.body_octets.set m.source_id 0 } ∧
        s1.data_length = s.data_length ∧
        s1.half_reset_calls = s.half_reset_calls) ∨
      (s1.type_expected.get m.source_id = SectionType.SEC_BODY ∧
        (∃ L, s1 = { s with
          type_expected := s.type_expected.set m.source_id SectionType.SEC_BODY
          data_length := s.data_length.set m.source_id L
          body_octets := s.body_octets.set m.source_id 0 }) ∧
        s1.half_reset_calls = s.half_reset_calls)) := by
  have reset : ∀ t : SectionType, t ≠ SectionType.SEC_BODY → t ≠ SectionType.SEC_CHUNK →
      s1 = half_reset { s with type_expected := s.type_expected.set m.source_id t }
        m.source_id →
      (∀ j, j ≠ m.source_id →
        s1.type_expected.get j = s.type_expected.get j ∧
        s1.data_length.get j = s.data_length.get j ∧
        s1.body_octets.get j = s.body_octets.get j) ∧
      (s1.half_reset_calls = s.half_reset_calls ∨
        s1.half_reset_calls = s.half_reset_calls ++ [m.source_id]) ∧
      ((s1.type_expected.get m.source_id ≠ SectionType.SEC_BODY ∧
          s1.type_expected.get m.source_id ≠ SectionType.SEC_CHUNK ∧
          s1 = half_reset
            { s with
              type_expected :=
                s.type_expected.set m.source_id (s1.type_expected.get m.source_id) }
            m.source_id) ∨
        (s1.type_expected.get m.source_id = SectionType.SEC_CHUNK ∧
          s1 = { s with
            type_expected := s.type_expected.set m.source_id SectionType.SEC_CHUNK
            body_octets := s.body_octets.set m.source_id 0 } ∧
          s1.data_length = s.data_length ∧
          s1.half_reset_calls = s.half_reset_calls) ∨
        (s1.type_expected.get m.source_id = SectionType.SEC_BODY ∧
          (∃ L, s1 = { s with
            type_expected := s.type_expected.set m.source_id SectionType.SEC_BODY
            data_length := s.data_length.set m.source_id L
            body_octets := s.body_octets.set m.source_id 0 }) ∧
          s1.half_reset_calls = s.half_reset_calls)) := by
    intro t hb hk e1
    have t1 : s1.type_expected.get m.source_id = t := by
      rw [e1]; exact half_reset_type_get _ _ _
    refine ⟨?_, Or.inr (by rw [e1]; rfl), Or.inl ⟨by rw [t1]; exact hb, by rw [t1]; exact hk,
      by rw [t1]; exact e1⟩⟩
    intro j hj
    rw [e1]
    exact ⟨Arr2.get_set_other _ _ _ _ hj, Arr2.get_set_other _ _ _ _ hj,
      Arr2.get_set_other _ _ _ _ hj⟩
  rcases update_flow_shape c m s s1 h with ⟨_, e1⟩ | ⟨_, _, _, e1⟩ | ⟨_, _, _, e1⟩
  · exact reset _ (by decide) (by decide) e1
  · exact reset _ (by decide) (by decide) e1
  · rcases e1 with ⟨_, e1⟩ | ⟨_, _, L, _, _, e1⟩ | ⟨_, _, e1⟩
    · refine ⟨?_, Or.inl (by rw [e1]), Or.inr (Or.inl ⟨?_, e1, by rw [e1], by rw [e1]⟩)⟩
      · intro j hj
        rw [e1]
        exact ⟨Arr2.get_set_other _ _ _ _ hj, rfl, Arr2.get_set_other _ _ _ _ hj⟩
      · rw [e1]
        exact Arr2.get_set_same _ _ _
    · refine ⟨?_, Or.inl (by rw [e1]), Or.inr (Or.inr ⟨?_, ⟨L, e1⟩, by rw [e1]⟩)⟩
      · intro j hj
        rw [e1]
        exact ⟨Arr2.get_set_other _ _ _ _ hj, Arr2.get_set_other _ _ _ _ hj,
          Arr2.get_set_other _ _ _ _ hj⟩
      · rw [e1]
        exact Arr2.get_set_same _ _ _
    · refine reset _ ?_ ?_ e1
      · cases m.source_id <;> simp
      · cases m.source_id <;> simp

/-- C17 at a server response 304 on flow data whose client direction holds type
`SEC_HEADER`, `data_length` 77 and `body_octets` 33: the client entries are unchanged. -/
theorem C17_direction_frame_witness :
    update_flow sample_constants
        (sample_msg false SourceId.SRC_SERVER 304 (some MethodId.METH_GET)
          (field_int64 2) (field_int64 50)) sample_flow
      = some (half_reset
        { sample_flow with
          type_expected := { client := SectionType.SEC_HEADER, server := SectionType.SEC_STATUS } }
        SourceId.SRC_SERVER) ∧
    (half_reset
        { sample_flow with
          type_expected := { client := SectionType.SEC_HEADER, server := SectionType.SEC_STATUS } }
        SourceId.SRC_SERVER).type_expected.get SourceId.SRC_CLIENT = SectionType.SEC_HEADER ∧
    (half_reset
        { sample_flow with
          type_expected := { client := SectionType.SEC_HEADER, server := SectionType.SEC_STATUS } }
        SourceId.SRC_SERVER).data_length.get SourceId.SRC_CLIENT = 77 ∧
    (half_reset
        { sample_flow with
          type_expected := { client := SectionType.SEC_HEADER, server := SectionType.SEC_STATUS } }
        SourceId.SRC_SERVER).body_octets.get SourceId.SRC_CLIENT = 33 :=
  ⟨by decide,
    ((C17_direction_frame sample_constants
      (sample_msg false SourceId.SRC_SERVER 304 (some MethodId.METH_GET)
        (field_int64 2) (field_int64 50)) sample_flow _ (by decide)).1
      SourceId.SRC_CLIENT (by decide))⟩

/-! ## Classifier and aggregation decision together -/

/-- The first guard of `worth_detection` decides `RES_AGGREGATE`. -/
theorem worth_detection_aggregate (c : Constants) (m : NHttpMsgHeader) (s : NHttpFlowData) :
    worth_detection c m s = ProcessResult.RES_AGGREGATE ↔
      (s.type_expected.get m.source_id = SectionType.SEC_BODY ∧
        s.data_length.get m.source_id ≤ s.unused_octets_visible.get m.source_id ∧
        s.data_length.get m.source_id ≤ c.DATABLOCKSIZE ∧
        s.section_buffer_length.get m.source_id + m.msg_text.length
          + s.data_length.get m.source_id ≤ c.MAXOCTETS) := by
  unfold worth_detection
  constructor
  · intro h
    by_contra hno
    rw [if_neg hno] at h
    split at h <;> exact ProcessResult.noConfusion h
  · intro h
    rw [if_pos h]

/-- C18: if `update_flow` and then `worth_detection` on the same section give
`RES_AGGREGATE`, the section was classified by the Content-Length branch: it is not
transport-closed, no server no-body guard holds, its Transfer-Encoding is absent or has a
last code other than `TRANSCODE_CHUNKED`, its Content-Length has positive length and holds
a value `L` with `0 < L <= DATABLOCKSIZE` and `L <= unused_octets_visible[source_id]`, and
`data_length[source_id] = L`. -/
theorem C18_aggregate_needs_content_length (c : Constants) (m : NHttpMsgHeader)
    (s s1 : NHttpFlowData)
    (h : update_flow c m s = some s1)
    (hagg : worth_detection c m s1 = ProcessResult.RES_AGGREGATE) :
    m.tcp_close = false ∧
    ¬ (m.source_id = SourceId.SRC_SERVER ∧
      (m.status_code_num ≤ 199 ∨ m.status_code_num = 204 ∨ m.status_code_num = 304)) ∧
    ¬ (m.source_id = SourceId.SRC_SERVER ∧ m.request = some MethodId.METH_HEAD) ∧
    ((m.get_header_value_norm HeaderId.HEAD_TRANSFER_ENCODING).length ≤ 0 ∨
      ∃ v, read_int64 (m.get_header_value_norm HeaderId.HEAD_TRANSFER_ENCODING).start
        ((m.get_header_value_norm HeaderId.HEAD_TRANSFER_ENCODING).length - 8) = some v ∧
        v ≠ c.TRANSCODE_CHUNKED) ∧
    (m.get_header_value_norm HeaderId.HEAD_CONTENT_LENGTH).length > 0 ∧
    ∃ L, read_int64 (m.get_header_value_norm HeaderId.HEAD_CONTENT_LENGTH).start 0 = some L ∧
      s1.data_length.get m.source_id = L ∧
      0 < L ∧ L ≤ c.DATABLOCKSIZE ∧
      L ≤ s1.unused_octets_visible.get m.source_id ∧
      s1.unused_octets_visible = s.unused_octets_visible := by
  obtain ⟨hbody, hvis, hblock, _⟩ := (worth_detection_aggregate c m s1).mp hagg
  have noreset : ∀ t : SectionType, t ≠ SectionType.SEC_BODY →
      s1 = half_reset { s with type_expected := s.type_expected.set m.source_id t }
        m.source_id → False := by
    intro t ht e1
    rw [e1, half_reset_type_get] at hbody
    exact ht hbody
  rcases update_flow_shape c m s s1 h with ⟨_, e1⟩ | ⟨_, _, _, e1⟩ | ⟨hc, h3, h4, e1⟩
  · exact (noreset _ (by decide) e1).elim
  · exact (noreset _ (by decide) e1).elim
  · rcases e1 with ⟨_, e1⟩ | ⟨hte, hcl, L, hpos, hL, e1⟩ | ⟨_, _, e1⟩
    · exfalso
      rw [e1] at hbody
      have hb : (s.type_expected.set m.source_id SectionType.SEC_CHUNK).get m.source_id
          = SectionType.SEC_BODY := hbody
      rw [Arr2.get_set_same] at hb
      exact SectionType.noConfusion hb
    · have hdl : s1.data_length.get m.source_id = L := by
        rw [e1]
        exact Arr2.get_set_same _ _ _
      refine ⟨hc, h3, h4, (transfer_encoding_chunked_false c m).mp hte,
        ((content_length_positive_true m).mp hcl).1, L, hL, hdl, hpos, ?_, ?_, ?_⟩
      · rw [← hdl]
        exact hblock
      · rw [← hdl]
        exact hvis
      · rw [e1]
    · refine (noreset _ ?_ e1).elim
      cases m.source_id <;> simp

/-- C18 at a client request with Content-Length 50, 200 octets of header text, 50 octets
visible and nothing buffered: the header is aggregated, with `data_length` 50. -/
theorem C18_aggregate_needs_content_length_witness :
    update_flow sample_constants
        (sample_msg false SourceId.SRC_CLIENT (-11) none field_absent (field_int64 50))
        sample_flow
      = some { sample_flow with
          type_expected := { client := SectionType.SEC_BODY, server := SectionType.SEC_HEADER }
          data_length := { client := 50, server := 88 }
          body_octets := { client := 0, server := 44 } } ∧
    worth_detection sample_constants
        (sample_msg false SourceId.SRC_CLIENT (-11) none field_absent (field_int64 50))
        { sample_flow with
          type_expected := { client := SectionType.SEC_BODY, server := SectionType.SEC_HEADER }
          data_length := { client := 50, server := 88 }
          body_octets := { client := 0, server := 44 } }
      = ProcessResult.RES_AGGREGATE ∧
    (sample_msg false SourceId.SRC_CLIENT (-11) none field_absent
      (field_int64 50)).tcp_close = false :=
  ⟨by decide, by decide,
    (C18_aggregate_needs_content_length sample_constants
      (sample_msg false SourceId.SRC_CLIENT (-11) none field_absent (field_int64 50))
      sample_flow
      { sample_flow with
        type_expected := { client := SectionType.SEC_BODY, server := SectionType.SEC_HEADER }
        data_length := { client := 50, server := 88 }
        body_octets := { client := 0, server := 44 } }
      (by decide) (by decide)).1⟩

/-- C19: with everything else fixed, a header that `worth_detection` aggregates is still
aggregated when `unused_octets_visible` of its direction is raised, and when
`section_buffer_length` of its direction and the header text length are lowered; and a
header with non-empty text is never ignored. -/
theorem C19_aggregate_monotone (c : Constants) (m : NHttpMsgHeader) (s : NHttpFlowData) :
    (∀ u : Int, s.unused_octets_visible.get m.source_id ≤ u →
      worth_detection c m s = ProcessResult.RES_AGGREGATE →
      worth_detection c m
        { s with unused_octets_visible := s.unused_octets_visible.set m.source_id u }
        = ProcessResult.RES_AGGREGATE) ∧
    (∀ b t : Int, b ≤ s.section_buffer_length.get m.source_id → t ≤ m.msg_text.length →
      worth_detection c m s = ProcessResult.RES_AGGREGATE →
      worth_detection c { m with msg_text := { m.msg_text with length := t } }
        { s with section_buffer_length := s.section_buffer_length.set m.source_id b }
        = ProcessResult.RES_AGGREGATE) ∧
    (m.msg_text.length > 0 → worth_detection c m s ≠ ProcessResult.RES_IGNORE) := by
  refine ⟨?_, ?_, ?_⟩
  · intro u hu hagg
    obtain ⟨hbody, hvis, hblock, hmax⟩ := (worth_detection_aggregate c m s).mp hagg
    refine (worth_detection_aggregate c m _).mpr ⟨hbody, ?_, hblock, hmax⟩
    show s.data_length.get m.source_id ≤ (s.unused_octets_visible.set m.source_id u).get _
    rw [Arr2.get_set_same]
    exact le_trans hvis hu
  · intro b t hb ht hagg
    obtain ⟨hbody, hvis, hblock, hmax⟩ := (worth_detection_aggregate c m s).mp hagg
    refine (worth_detection_aggregate c _ _).mpr ⟨hbody, hvis, hblock, ?_⟩
    show (s.section_buffer_length.set m.source_id b).get m.source_id + t
      + s.data_length.get m.source_id ≤ c.MAXOCTETS
    rw [Arr2.get_set_same]
    omega
  · intro hpos hign
    unfold worth_detection at hign
    split at hign
    · exact ProcessResult.noConfusion hign
    · rw [if_pos (Or.inl hpos)] at hign
      exact ProcessResult.noConfusion hign

/-- C19 at a 200-octet header expecting a 50-octet body with 50 octets visible: it is
still aggregated with 60 octets visible, and it is not ignored. -/
theorem C19_aggregate_monotone_witness :
    worth_detection sample_constants
      (sample_msg false SourceId.SRC_CLIENT (-11) none field_absent (field_int64 50))
      { sample_body_flow 50 with
        unused_octets_visible :=
          (sample_body_flow 50).unused_octets_visible.set SourceId.SRC_CLIENT 60 }
      = ProcessResult.RES_AGGREGATE ∧
    worth_detection sample_constants
      (sample_msg false SourceId.SRC_CLIENT (-11) none field_absent (field_int64 50))
      (sample_body_flow 50) ≠ ProcessResult.RES_IGNORE :=
  ⟨(C19_aggregate_monotone sample_constants
      (sample_msg false SourceId.SRC_CLIENT (-11) none field_absent (field_int64 50))
      (sample_body_flow 50)).1 60 (by decide) (by decide),
    (C19_aggregate_monotone sample_constants
      (sample_msg false SourceId.SRC_CLIENT (-11) none field_absent (field_int64 50))
      (sample_body_flow 50)).2.2 (by decide)⟩

/-! ## Status codes below 100, and events on degradation -/

/-- C13: on a server response to GET whose status code is 99, not transport-closed, with
a Transfer-Encoding ending in chunked, `update_flow` takes the status branch
(`status_code_num <= 199`): it leaves `SEC_STATUS`, not `SEC_CHUNK`, and calls
`half_reset(SRC_SERVER)`. The same happens with the status marker -12 and a
Content-Length of 50: the result is `SEC_STATUS`, not `SEC_BODY`. -/
theorem C13_status_below_100_has_no_body :
    update_flow sample_constants
        (sample_msg false SourceId.SRC_SERVER 99 (some MethodId.METH_GET)
          (field_int64 2) field_absent) sample_flow
      = some (half_reset
        { sample_flow with
          type_expected := { client := SectionType.SEC_HEADER, server := SectionType.SEC_STATUS } }
        SourceId.SRC_SERVER) ∧
    (half_reset
        { sample_flow with
          type_expected := { client := SectionType.SEC_HEADER, server := SectionType.SEC_STATUS } }
        SourceId.SRC_SERVER).type_expected.get SourceId.SRC_SERVER ≠ SectionType.SEC_CHUNK ∧
    update_flow sample_constants
        (sample_msg false SourceId.SRC_SERVER (-12) (some MethodId.METH_GET)
          field_absent (field_int64 50)) sample_flow
      = some (half_reset
        { sample_flow with
          type_expected := { client := SectionType.SEC_HEADER, server := SectionType.SEC_STATUS } }
        SourceId.SRC_SERVER) ∧
    (half_reset
        { sample_flow with
          type_expected := { client := SectionType.SEC_HEADER, server := SectionType.SEC_STATUS } }
        SourceId.SRC_SERVER).type_expected.get SourceId.SRC_SERVER ≠ SectionType.SEC_BODY := by
  refine ⟨by decide, by decide, by decide, by decide⟩

/-- C14, as stated, fails: a server response 200 to GET with a Transfer-Encoding that is
present and does not end in chunked and one Content-Length that is present with value 0
falls to the last branch of `update_flow` (`SEC_STATUS`, then `half_reset`), and
`gen_events` after a shared step that raises nothing leaves the event list empty. -/
theorem C14_degraded_without_event :
    (sample_degraded_msg.get_header_value_norm HeaderId.HEAD_TRANSFER_ENCODING).length > 0 ∧
    read_int64 (sample_degraded_msg.get_header_value_norm HeaderId.HEAD_TRANSFER_ENCODING).start
      ((sample_degraded_msg.get_header_value_norm HeaderId.HEAD_TRANSFER_ENCODING).length - 8)
      = some 5 ∧
    (5 : Int) ≠ sample_constants.TRANSCODE_CHUNKED ∧
    sample_degraded_msg.header_count HeaderId.HEAD_CONTENT_LENGTH = 1 ∧
    (sample_degraded_msg.get_header_value_norm HeaderId.HEAD_CONTENT_LENGTH).length > 0 ∧
    read_int64 (sample_degraded_msg.get_header_value_norm HeaderId.HEAD_CONTENT_LENGTH).start 0
      = some 0 ∧
    update_flow sample_constants sample_degraded_msg sample_flow
      = some (half_reset
        { sample_flow with
          type_expected := { client := SectionType.SEC_HEADER, server := SectionType.SEC_STATUS } }
        SourceId.SRC_SERVER) ∧
    (gen_events shared_gen_events_none sample_degraded_msg
      { session_data := sample_flow, events := [] }).events = [] := by
  refine ⟨by decide, by decide, by decide, by decide, by decide, by decide, by decide,
    by decide⟩

/-- C14, amended: the only event the header section adds is the one for a repeated
Content-Length. With at most one Content-Length header `gen_events` leaves the events as
the shared step left them, whatever the framing headers hold; with more than one it adds
`EVENT_MULTIPLE_CONTLEN`. In both cases the flow data are those of the shared step. -/
theorem C14_event_only_for_repeated_length
    (shared_gen_events : NHttpMsgHeader → Inspection → Inspection)
    (m : NHttpMsgHeader) (w : Inspection) :
    (m.header_count HeaderId.HEAD_CONTENT_LENGTH ≤ 1 →
      (gen_events shared_gen_events m w).events = (shared_gen_events m w).events) ∧
    (m.header_count HeaderId.HEAD_CONTENT_LENGTH > 1 →
      (gen_events shared_gen_events m w).events =
        (shared_gen_events m w).events ++ [EventSid.EVENT_MULTIPLE_CONTLEN]) ∧
    (gen_events shared_gen_events m w).session_data
      = (shared_gen_events m w).session_data := by
  unfold gen_events
  refine ⟨?_, ?_, ?_⟩
  · intro h
    simp [not_lt.mpr h]
  · intro h
    simp [h, create_event]
  · by_cases h : m.header_count HeaderId.HEAD_CONTENT_LENGTH > 1
    · simp [h, create_event]
    · simp [h]

/-- C14, amended, at the degraded response with one Content-Length (no event is added)
and at the same section with three Content-Length headers counted (one event is added). -/
theorem C14_event_only_for_repeated_length_witness :
    (gen_events shared_gen_events_none sample_degraded_msg
        { session_data := sample_flow, events := [] }).events
      = (shared_gen_events_none sample_degraded_msg
        { session_data := sample_flow, events := [] }).events ∧
    (gen_events shared_gen_events_none (sample_variant sample_degraded_msg)
        { session_data := sample_flow, events := [] }).events
      = (shared_gen_events_none (sample_variant sample_degraded_msg)
        { session_data := sample_flow, events := [] }).events
          ++ [EventSid.EVENT_MULTIPLE_CONTLEN] :=
  ⟨(C14_event_only_for_repeated_length shared_gen_events_none sample_degraded_msg
      { session_data := sample_flow, events := [] }).1 (by decide),
    (C14_event_only_for_repeated_length shared_gen_events_none
      (sample_variant sample_degraded_msg)
      { session_data := sample_flow, events := [] }).2.1 (by decide)⟩

end NHttp

namespace Stream

/-! ## Packet dispatcher -/

/-- C12: `is_eligible` is true exactly when `frag_flag` is clear, the bit
`PKT_ERR_CKSUM_IP` of `error_flags` is clear, the bit `PKT_REBUILT_STREAM` of
`packet_flags` is clear and the IP header is valid; and on a packet that is not eligible
`StreamBase::eval` makes no call on `flow_con` and leaves the five counters as they
were. -/
theorem C12_eligibility (k : PacketConstants) (p : Packet) (st : StreamState) :
    (is_eligible k p = true ↔
      (p.frag_flag = 0 ∧ p.error_flags &&& k.PKT_ERR_CKSUM_IP = 0 ∧
        p.packet_flags &&& k.PKT_REBUILT_STREAM = 0 ∧ p.iph_is_valid = true)) ∧
    (is_eligible k p = false →
      StreamBase.eval k p st = st ∧
      (StreamBase.eval k p st).flow_con_calls = st.flow_con_calls ∧
      (StreamBase.eval k p st).t_stats.ip = st.t_stats.ip ∧
      (StreamBase.eval k p st).t_stats.icmp = st.t_stats.icmp ∧
      (StreamBase.eval k p st).t_stats.tcp = st.t_stats.tcp ∧
      (StreamBase.eval k p st).t_stats.udp = st.t_stats.udp ∧
      (StreamBase.eval k p st).t_stats.other = st.t_stats.other) := by
  constructor
  · unfold is_eligible
    by_cases h1 : p.frag_flag = 0
    · by_cases h2 : p.error_flags &&& k.PKT_ERR_CKSUM_IP = 0
      · by_cases h3 : p.packet_flags &&& k.PKT_REBUILT_STREAM = 0
        · by_cases h4 : p.iph_is_valid = true
          · simp [h1, h2, h3, h4]
          · simp [h1, h2, h3, h4]
        · simp [h1, h2, h3]
      · simp [h1, h2]
    · simp [h1]
  · intro h
    have he : StreamBase.eval k p st = st := by
      unfold StreamBase.eval
      rw [if_pos (by simp [h])]
    rw [he]
    exact ⟨rfl, rfl, rfl, rfl, rfl, rfl, rfl⟩

/-- C12 at a TCP fragment: it is not eligible and the state of the thread is unchanged. -/
theorem C12_eligibility_witness :
    is_eligible sample_packet_constants { sample_packet IPPROTO_TCP with frag_flag := 1 }
      = false ∧
    StreamBase.eval sample_packet_constants { sample_packet IPPROTO_TCP with frag_flag := 1 }
      sample_stream_state = sample_stream_state :=
  ⟨by decide,
    ((C12_eligibility sample_packet_constants
      { sample_packet IPPROTO_TCP with frag_flag := 1 } sample_stream_state).2
      (by decide)).1⟩

/-- On an eligible packet `StreamBase::eval` goes on to the switch. -/
theorem eval_eligible (k : PacketConstants) (p : Packet) (st : StreamState)
    (h : is_eligible k p = true) :
    StreamBase.eval k p st =
      if p.iph_proto = IPPROTO_TCP then
        { t_stats := { st.t_stats with tcp := st.t_stats.tcp + 1 }
          flow_con_calls := st.flow_con_calls ++ [FlowCall.process_tcp] }
      else if p.iph_proto = IPPROTO_UDP then
        { t_stats := { st.t_stats with udp := st.t_stats.udp + 1 }
          flow_con_calls := st.flow_con_calls ++ [FlowCall.process_udp] }
      else if p.iph_proto = IPPROTO_ICMP then
        { t_stats := { st.t_stats with icmp := st.t_stats.icmp + 1 }
          flow_con_calls := st.flow_con_calls ++ [FlowCall.process_icmp] }
      else if p.iph_proto = IPPROTO_IP then
        { t_stats := { st.t_stats with ip := st.t_stats.ip + 1 }
          flow_con_calls := st.flow_con_calls ++ [FlowCall.process_ip] }
      else
        { st with t_stats := { st.t_stats with other := st.t_stats.other + 1 } } := by
  unfold StreamBase.eval
  rw [if_neg (by simp [h])]

/-- C15: on an eligible packet `StreamBase::eval` makes exactly one call on `flow_con`,
the one of the packet's protocol (TCP, UDP, ICMP, IP), and adds 1 to the counter of that
protocol alone; for any other protocol it makes no call and adds 1 to `other` alone. In
every case the sum of the five counters grows by exactly 1. -/
theorem C15_routing (k : PacketConstants) (p : Packet) (st : StreamState)
    (h : is_eligible k p = true) :
    (p.iph_proto = IPPROTO_TCP →
      StreamBase.eval k p st =
        { t_stats := { st.t_stats with tcp := st.t_stats.tcp + 1 }
          flow_con_calls := st.flow_con_calls ++ [FlowCall.process_tcp] }) ∧
    (p.iph_proto = IPPROTO_UDP →
      StreamBase.eval k p st =
        { t_stats := { st.t_stats with udp := st.t_stats.udp + 1 }
          flow_con_calls := st.flow_con_calls ++ [FlowCall.process_udp] }) ∧
    (p.iph_proto = IPPROTO_ICMP →
      StreamBase.eval k p st =
        { t_stats := { st.t_stats with icmp := st.t_stats.icmp + 1 }
          flow_con_calls := st.flow_con_calls ++ [FlowCall.process_icmp] }) ∧
    (p.iph_proto = IPPROTO_IP →
      StreamBase.eval k p st =
        { t_stats := { st.t_stats with ip := st.t_stats.ip + 1 }
          flow_con_calls := st.flow_con_calls ++ [FlowCall.process_ip] }) ∧
    (p.iph_proto ≠ IPPROTO_TCP → p.iph_proto ≠ IPPROTO_UDP →
      p.iph_proto ≠ IPPROTO_ICMP → p.iph_proto ≠ IPPROTO_IP →
      StreamBase.eval k p st =
        { t_stats := { st.t_stats with other := st.t_stats.other + 1 }
          flow_con_calls := st.flow_con_calls }) ∧
    (StreamBase.eval k p st).t_stats.total = st.t_stats.total + 1 := by
  rw [eval_eligible k p st h]
  refine ⟨?_, ?_, ?_, ?_, ?_, ?_⟩
  · intro hp
    rw [if_pos hp]
  · intro hp
    rw [if_neg (by rw [hp]; decide), if_pos hp]
  · intro hp
    rw [if_neg (by rw [hp]; decide), if_neg (by rw [hp]; decide), if_pos hp]
  · intro hp
    rw [if_neg (by rw [hp]; decide), if_neg (by rw [hp]; decide),
      if_neg (by rw [hp]; decide), if_pos hp]
  · intro h1 h2 h3 h4
    rw [if_neg h1, if_neg h2, if_neg h3, if_neg h4]
  · split_ifs <;> simp only [BaseStats.total] <;> omega

/-- C15 at an eligible UDP packet and at an eligible packet of protocol 47. -/
theorem C15_routing_witness :
    StreamBase.eval sample_packet_constants (sample_packet IPPROTO_UDP) sample_stream_state =
      { t_stats := { ip := 1, icmp := 2, tcp := 3, udp := 5, other := 5 },
        flow_con_calls := [FlowCall.process_udp, FlowCall.process_udp] } ∧
    (StreamBase.eval sample_packet_constants (sample_packet 47)
      sample_stream_state).t_stats.total = sample_stream_state.t_stats.total + 1 :=
  ⟨(C15_routing sample_packet_constants (sample_packet IPPROTO_UDP) sample_stream_state
      (by decide)).2.1 rfl,
    (C15_routing sample_packet_constants (sample_packet 47) sample_stream_state
      (by decide)).2.2.2.2.2⟩

end Stream
